import Mathlib

/-!
# Device negotiation engine of the sane audio renderer

A shallow embedding of `src/DeviceManager.cpp` and the proofs of its specified
properties.

* COM interfaces are records of what their methods return: an interface pointer is
  `Option` of such a record, `nullptr` being `none`.  A method gives the same answer
  whenever it is asked the same question.
* A procedure that mutates an object of type `σ`, may throw a C++ exception and may
  terminate the process is a function `σ → Outcome σ α`.  The outcome carries the
  final value of the mutated object also when an exception is thrown, and the list of
  the calls that left the translation unit, in order.
* `assert` follows the build: it is absent under `NDEBUG`, and terminates the process
  on a false condition otherwise.
* `std::bad_alloc` is thrown where the code allocates by name, in `make_shared` and in
  `CopyWaveFormat`.
* `SendMessage` runs the window procedure and gives its result back to the sender.
* `HRESULT` and `LRESULT` are integers; unsigned machine integers are natural numbers
  reduced explicitly where the source narrows or may wrap.
-/

namespace SaneAudioRenderer

/-! ## Platform scalars -/

abbrev HRESULT := Int
abbrev LRESULT := Int

def S_OK : HRESULT := 0
def E_FAIL : HRESULT := -2147467259
def E_POINTER : HRESULT := -2147467261
def AUDCLNT_E_UNSUPPORTED_FORMAT : HRESULT := -2004287480

def FAILED (hr : HRESULT) : Bool := decide (hr < 0)
def SUCCEEDED (hr : HRESULT) : Bool := decide (0 ≤ hr)

def WAVE_FORMAT_PCM : Nat := 1
def WAVE_FORMAT_EXTENSIBLE : Nat := 0xFFFE

def WM_DESTROY : Nat := 0x0002
def WM_USER : Nat := 0x0400
def WM_CHECK_BITSTREAM_FORMAT : Nat := WM_USER + 100
def WM_CREATE_DEVICE : Nat := WM_USER + 101

inductive AUDCLNT_SHAREMODE where
  | AUDCLNT_SHAREMODE_SHARED
  | AUDCLNT_SHAREMODE_EXCLUSIVE
  deriving DecidableEq, Repr
open AUDCLNT_SHAREMODE

inductive GUID where
  | KSDATAFORMAT_SUBTYPE_PCM
  | KSDATAFORMAT_SUBTYPE_IEEE_FLOAT
  | other (data : Nat)
  deriving DecidableEq, Repr
open GUID (KSDATAFORMAT_SUBTYPE_PCM KSDATAFORMAT_SUBTYPE_IEEE_FLOAT)

inductive PROPERTYKEY where
  | PKEY_Device_FriendlyName
  | PKEY_DeviceInterface_FriendlyName
  | PKEY_Device_DeviceDesc
  deriving DecidableEq, Repr
open PROPERTYKEY

inductive IID where
  | IAudioRenderClient
  | IAudioClock
  deriving DecidableEq, Repr

/-- Modelled from the spec: the macro `MILLISECONDS_TO_100NS_UNITS` of the precompiled
header, outside `src/`; the buffer duration of 200 ms is passed to the platform in its
units of 100 ns. -/
def MILLISECONDS_TO_100NS_UNITS (ms : Nat) : Nat := ms * 10000

/-! ## Wave formats -/

structure WAVEFORMATEX where
  wFormatTag : Nat
  nChannels : Nat
  nSamplesPerSec : Nat
  nAvgBytesPerSec : Nat
  nBlockAlign : Nat
  wBitsPerSample : Nat
  cbSize : Nat
  deriving DecidableEq, Repr

structure WAVEFORMATEXTENSIBLE where
  Format : WAVEFORMATEX
  wValidBitsPerSample : Nat
  dwChannelMask : Nat
  SubFormat : GUID
  deriving DecidableEq, Repr

/-- What a `WAVEFORMATEX*` points to: a bare header, or the header of an extensible
descriptor. -/
inductive WaveFormat where
  | plain (header : WAVEFORMATEX)
  | extensible (descriptor : WAVEFORMATEXTENSIBLE)
  deriving DecidableEq, Repr

def WaveFormat.Format : WaveFormat → WAVEFORMATEX
  | .plain header => header
  | .extensible descriptor => descriptor.Format

/-- The type `std::shared_ptr<WAVEFORMATEX>`. -/
abbrev SharedWaveFormat := Option WaveFormat

/-- Modelled from the spec: the enumeration `DspFormat`, declared in a header outside
`src/`, is "enum {Unknown, Float, Pcm16, Pcm24, Pcm32} where `Unknown` denotes raw
bitstream passthrough"; a value-initialised device has the first enumerator. -/
inductive DspFormat where
  | Unknown
  | Float
  | Pcm16
  | Pcm24
  | Pcm32
  deriving DecidableEq, Repr

def BuildFormat (formatGuid : GUID) (formatBits : Nat) (formatExtProps : Nat)
    (rate : Nat) (channelCount : Nat) (channelMask : Nat) : WAVEFORMATEXTENSIBLE :=
  { Format :=
      { wFormatTag := WAVE_FORMAT_EXTENSIBLE
        nChannels := channelCount % 2 ^ 16
        nSamplesPerSec := rate
        nAvgBytesPerSec := (formatBits / 8 * rate * channelCount) % 2 ^ 32
        nBlockAlign := (formatBits / 8 * channelCount) % 2 ^ 32 % 2 ^ 16
        wBitsPerSample := formatBits % 2 ^ 16
        cbSize := 22 }
    wValidBitsPerSample := formatExtProps
    dwChannelMask := channelMask
    SubFormat := formatGuid }

/-! ## Interfaces -/

structure IAudioClock where
  AddRef : Nat

structure IAudioRenderClient where
  AddRef : Nat

structure IAudioClient where
  AddRef : Nat
  GetMixFormat : HRESULT × WaveFormat
  IsFormatSupported : AUDCLNT_SHAREMODE → Option WaveFormat → HRESULT
  Initialize : AUDCLNT_SHAREMODE → Nat → Nat → Nat → Option WaveFormat → HRESULT
  GetService_RenderClient : HRESULT × IAudioRenderClient
  GetService_Clock : HRESULT × IAudioClock

structure IPropertyStore where
  GetValue : PROPERTYKEY → HRESULT × String

structure IMMDevice where
  OpenPropertyStore : HRESULT × IPropertyStore
  Activate : HRESULT × IAudioClient

structure IMMDeviceCollection where
  GetCount : HRESULT × Nat
  Item : Nat → HRESULT × IMMDevice

structure IMMDeviceEnumerator where
  GetDefaultAudioEndpoint : HRESULT × IMMDevice
  EnumAudioEndpoints : HRESULT × IMMDeviceCollection

structure ISettings where
  GetSerial : Nat
  GetOuputDevice : HRESULT × Option String × Int

/-- What the code takes from outside the translation unit: the build mode, the two
functions of this repository that `src/` declares or calls and does not define
(`DspFormatFromWaveFormat`, `DspMatrix::GetChannelMask`), whether an allocation throws,
and the platform entry points. -/
structure Env where
  NDEBUG : Bool
  DspFormatFromWaveFormat : WaveFormat → DspFormat
  GetChannelMask : WaveFormat → Nat
  wstring_bad_alloc : String → Bool
  format_bad_alloc : WaveFormat → Bool
  CoCreateInstance : HRESULT × IMMDeviceEnumerator
  DefWindowProc : Nat → LRESULT

/-! ## Devices and the engine -/

/-- Modelled from the spec: the structure `AudioDevice`, declared in `DeviceManager.h`
outside `src/`, with the members the source reads and writes; the default values are
those of the value-initialisation `m_device = {}`. -/
structure AudioDevice where
  friendlyName : Option String := none
  adapterName : Option String := none
  endpointName : Option String := none
  audioClient : Option IAudioClient := none
  audioRenderClient : Option IAudioRenderClient := none
  audioClock : Option IAudioClock := none
  format : SharedWaveFormat := none
  dspFormat : DspFormat := DspFormat.Unknown
  bufferDuration : Nat := 0
  settingsSerial : Nat := 0
  exclusive : Bool := false
  default : Bool := false

/-- The data members of the class `DeviceManager` that the handlers read and write. -/
structure DeviceManager where
  m_device : AudioDevice := {}
  m_queuedDestroy : Bool := false
  m_queuedCheckBitstream : Bool := false
  m_queuedCreateDevice : Bool := false
  m_checkBitstreamFormat : SharedWaveFormat := none
  m_checkBitstreamSettings : Option ISettings := none
  m_createDeviceFormat : SharedWaveFormat := none
  m_createDeviceSettings : Option ISettings := none

/-! ## Procedures -/

inductive Exception where
  | hresult (hr : HRESULT)
  | bad_alloc
  deriving DecidableEq, Repr

inductive Fatal where
  | assertion
  | null_dereference
  deriving DecidableEq, Repr

/-- The calls that leave the translation unit, and the reset of the held device. -/
inductive Event where
  | ReleaseDevice
  | GetSerial
  | GetOuputDevice
  | CoCreateInstance
  | GetDefaultAudioEndpoint
  | EnumAudioEndpoints
  | GetCount
  | Item (i : Nat)
  | OpenPropertyStore
  | GetValue (key : PROPERTYKEY)
  | Activate
  | GetMixFormat
  | IsFormatSupported (mode : AUDCLNT_SHAREMODE) (format : Option WaveFormat)
  | Initialize (mode : AUDCLNT_SHAREMODE) (flags : Nat) (duration : Nat) (periodicity : Nat)
      (format : Option WaveFormat)
  | GetService (iid : IID)
  | PostQuitMessage
  | DefWindowProc (msg : Nat)
  deriving DecidableEq, Repr

inductive Result (α : Type) where
  | value (a : α)
  | thrown (e : Exception)
  | fatal (why : Fatal)

structure Outcome (σ α : Type) where
  result : Result α
  state : σ
  trace : List Event

def M (σ α : Type) : Type := σ → Outcome σ α

namespace M

variable {σ α β : Type}

def unit (a : α) : M σ α := fun s => ⟨.value a, s, []⟩

def andThen (m : M σ α) (f : α → M σ β) : M σ β := fun s =>
  match (m s).result with
  | .value a => ⟨(f a (m s).state).result, (f a (m s).state).state,
      (m s).trace ++ (f a (m s).state).trace⟩
  | .thrown e => ⟨.thrown e, (m s).state, (m s).trace⟩
  | .fatal why => ⟨.fatal why, (m s).state, (m s).trace⟩

instance : Monad (M σ) where
  pure := M.unit
  bind := M.andThen

def read : M σ σ := fun s => ⟨.value s, s, []⟩

def update (f : σ → σ) : M σ Unit := fun s => ⟨.value (), f s, []⟩

def raise (e : Exception) : M σ α := fun s => ⟨.thrown e, s, []⟩

def abort (why : Fatal) : M σ α := fun s => ⟨.fatal why, s, []⟩

/-- A call that leaves the translation unit and returns `r`. -/
def call (e : Event) (r : α) : M σ α := fun s => ⟨.value r, s, [e]⟩

/-- The statement `try { body } catch (...) { handler }`; `handler e` is `none` when no
catch clause matches `e`. -/
def tryCatch (body : M σ α) (handler : Exception → Option (M σ α)) : M σ α := fun s =>
  match (body s).result with
  | .thrown e =>
    match handler e with
    | some h => ⟨(h (body s).state).result, (h (body s).state).state,
        (body s).trace ++ (h (body s).state).trace⟩
    | none => body s
  | _ => body s

/-- Runs a procedure on a local variable initialised to `init`; the local is given back
with the value when the procedure returns. -/
def withLocal {τ : Type} (init : τ) (m : M τ α) : M σ (α × τ) := fun s =>
  match (m init).result with
  | .value a => ⟨.value (a, (m init).state), s, (m init).trace⟩
  | .thrown e => ⟨.thrown e, s, (m init).trace⟩
  | .fatal why => ⟨.fatal why, s, (m init).trace⟩

end M

open M

/-- Modelled from the spec: the helper `ThrowIfFailed`, defined outside `src/`; a failed
platform call is propagated as an exception that carries its result code. -/
def ThrowIfFailed {σ : Type} (hr : HRESULT) : M σ Unit :=
  if FAILED hr then raise (.hresult hr) else pure ()

/-- The macro `assert`: nothing under `NDEBUG`, and otherwise the condition is evaluated
and the process terminated when it is false. -/
def assert {σ : Type} (env : Env) (cond : M σ Bool) : M σ Unit :=
  if env.NDEBUG then pure () else do
    let ok ← cond
    if ok then pure () else abort Fatal.assertion

/-- Reads through a pointer. -/
def deref {σ α : Type} (p : Option α) : M σ α :=
  match p with
  | some a => pure a
  | none => abort Fatal.null_dereference

/-- The function `std::make_shared<std::wstring>`. -/
def make_shared_wstring {σ : Type} (env : Env) (s : String) : M σ String :=
  if env.wstring_bad_alloc s then raise Exception.bad_alloc else pure s

/-- Modelled from the spec: `CopyWaveFormat`, defined outside `src/`, gives "a validated
copy of its wire-format descriptor"; the copy is allocated, so it may throw. -/
def CopyWaveFormat {σ : Type} (env : Env) (format : WaveFormat) : M σ WaveFormat :=
  if env.format_bad_alloc format then raise Exception.bad_alloc else pure format

/-- Whether the first string comes before the second, character by character. -/
def wcscmp.less : List Char → List Char → Bool
  | [], [] => false
  | [], _ :: _ => true
  | _ :: _, [] => false
  | x :: xs, y :: ys =>
    if x.toNat < y.toNat then true
    else if y.toNat < x.toNat then false
    else wcscmp.less xs ys

/-- The function `wcscmp` of the C library: zero exactly when the strings are equal. -/
def wcscmp (a b : String) : Int :=
  if a = b then 0 else if wcscmp.less a.data b.data then -1 else 1

/-- The template `IsLastInstance`, on the three interfaces it is used with. -/
def IsLastInstance (addRef : Nat) : Bool := decide (addRef = 2)

/-- Runs a procedure that takes the held device by reference. -/
def onDevice {α : Type} (m : M AudioDevice α) : M DeviceManager α := fun s =>
  ⟨(m s.m_device).result, { s with m_device := (m s.m_device).state }, (m s.m_device).trace⟩

def GetDevicePropertyString {σ : Type} (env : Env) (pStore : Option IPropertyStore)
    (key : PROPERTYKEY) : M σ String := do
  assert env (pure pStore.isSome)
  let store ← deref pStore
  let prop ← call (Event.GetValue key) (store.GetValue key)
  ThrowIfFailed prop.1
  let ret ← make_shared_wstring env prop.2
  return ret

/-- The condition `!deviceName || !*deviceName`. -/
def noDeviceName (deviceName : Option String) : Bool :=
  match deviceName with
  | none => true
  | some name => decide (name = "")

/-- The loop `for (UINT i = 0; i < count; i++)` of `CreateAudioClient`, with `remaining`
iterations to go from index `i`; the pair is the locals `device`, `devicePropertyStore`. -/
def CreateAudioClient.loop (env : Env) (deviceName : String) (collection : IMMDeviceCollection) :
    (remaining : Nat) → (i : Nat) → Option IMMDevice × Option IPropertyStore →
      M AudioDevice (Option IMMDevice × Option IPropertyStore)
  | 0, _, locals => pure locals
  | remaining + 1, i, _ => do
    let device ← call (Event.Item i) (collection.Item i)
    ThrowIfFailed device.1
    let devicePropertyStore ← call Event.OpenPropertyStore device.2.OpenPropertyStore
    ThrowIfFailed devicePropertyStore.1
    let name ← GetDevicePropertyString env (some devicePropertyStore.2) PKEY_Device_FriendlyName
    update fun output => { output with friendlyName := some name }
    if wcscmp deviceName name ≠ 0 then do
      update fun output => { output with friendlyName := none }
      CreateAudioClient.loop env deviceName collection remaining (i + 1) (none, none)
    else
      CreateAudioClient.loop env deviceName collection remaining (i + 1)
        (some device.2, some devicePropertyStore.2)

/-- The end of `CreateAudioClient`, from `if (!device) return;` on. -/
def CreateAudioClient.activate (env : Env) (device : Option IMMDevice)
    (devicePropertyStore : Option IPropertyStore) : M AudioDevice Unit :=
  match device with
  | none => return
  | some device => do
    let adapterName ← GetDevicePropertyString env devicePropertyStore
      PKEY_DeviceInterface_FriendlyName
    update fun output => { output with adapterName := some adapterName }
    let endpointName ← GetDevicePropertyString env devicePropertyStore PKEY_Device_DeviceDesc
    update fun output => { output with endpointName := some endpointName }
    let activated ← call Event.Activate device.Activate
    update fun output =>
      { output with audioClient := if FAILED activated.1 then none else some activated.2 }
    ThrowIfFailed activated.1

def CreateAudioClient (env : Env) (pSettings : Option ISettings) : M AudioDevice Unit := do
  assert env (pure pSettings.isSome)
  let settings ← deref pSettings
  let serial ← call Event.GetSerial settings.GetSerial
  update fun output => { output with settingsSerial := serial }
  let got ← call Event.GetOuputDevice settings.GetOuputDevice
  ThrowIfFailed got.1
  let deviceName := got.2.1
  update fun output => { output with exclusive := decide (got.2.2 ≠ 0) }
  let enumerator ← call Event.CoCreateInstance env.CoCreateInstance
  ThrowIfFailed enumerator.1
  let locals ←
    if noDeviceName deviceName then do
      update fun output => { output with default := true }
      let device ← call Event.GetDefaultAudioEndpoint enumerator.2.GetDefaultAudioEndpoint
      ThrowIfFailed device.1
      let devicePropertyStore ← call Event.OpenPropertyStore device.2.OpenPropertyStore
      ThrowIfFailed devicePropertyStore.1
      let name ← GetDevicePropertyString env (some devicePropertyStore.2) PKEY_Device_FriendlyName
      update fun output => { output with friendlyName := some name }
      pure (some device.2, some devicePropertyStore.2)
    else do
      update fun output => { output with default := false }
      let collection ← call Event.EnumAudioEndpoints enumerator.2.EnumAudioEndpoints
      ThrowIfFailed collection.1
      let count ← call Event.GetCount collection.2.GetCount
      ThrowIfFailed count.1
      CreateAudioClient.loop env (deviceName.getD "") collection.2 count.2 0 (none, none)
  CreateAudioClient.activate env locals.1 locals.2

/-- The lambda `areLastInstances` of `ReleaseDevice`. -/
def ReleaseDevice.areLastInstances : M DeviceManager Bool := do
  if (← read).m_device.audioClock.any (fun p => !IsLastInstance p.AddRef) then
    return false
  update fun s => { s with m_device := { s.m_device with audioClock := none } }
  if (← read).m_device.audioRenderClient.any (fun p => !IsLastInstance p.AddRef) then
    return false
  update fun s => { s with m_device := { s.m_device with audioRenderClient := none } }
  if (← read).m_device.audioClient.any (fun p => !IsLastInstance p.AddRef) then
    return false
  return true

def ReleaseDevice (env : Env) : M DeviceManager Unit := do
  assert env ReleaseDevice.areLastInstances
  call Event.ReleaseDevice ()
  update fun s => { s with m_device := {} }

/-- The `try` block of `OnCheckBitstreamFormat`. -/
def OnCheckBitstreamFormat.tryBlock (env : Env) : M DeviceManager LRESULT := do
  let _device ← withLocal ({} : AudioDevice)
    (CreateAudioClient env (← read).m_checkBitstreamSettings)
  match (← read).m_device.audioClient with
  | none => return 1
  | some audioClient =>
    let format := (← read).m_checkBitstreamFormat
    let hr ← call (Event.IsFormatSupported AUDCLNT_SHAREMODE_EXCLUSIVE format)
      (audioClient.IsFormatSupported AUDCLNT_SHAREMODE_EXCLUSIVE format)
    return if SUCCEEDED hr then 0 else 1

def OnCheckBitstreamFormat (env : Env) : M DeviceManager LRESULT := do
  if !(← read).m_queuedCheckBitstream then
    return 1
  assert env (do return (← read).m_checkBitstreamFormat.isSome)
  assert env (do return (← read).m_checkBitstreamSettings.isSome)
  update fun s => { s with m_queuedCheckBitstream := false }
  tryCatch (OnCheckBitstreamFormat.tryBlock env)
    (fun e =>
      match e with
      | Exception.hresult _ => some (pure 1)
      | Exception.bad_alloc => none)

/-- The array `priorities` of `OnCreateDevice`. -/
def OnCreateDevice.priorities (env : Env) (m_createDeviceFormat mixFormat : WaveFormat) :
    List (DspFormat × WAVEFORMATEXTENSIBLE) :=
  [ (DspFormat.Float, BuildFormat KSDATAFORMAT_SUBTYPE_IEEE_FLOAT 32 32 m_createDeviceFormat.Format.nSamplesPerSec mixFormat.Format.nChannels (env.GetChannelMask mixFormat)),
    (DspFormat.Pcm32, BuildFormat KSDATAFORMAT_SUBTYPE_PCM 32 32 m_createDeviceFormat.Format.nSamplesPerSec mixFormat.Format.nChannels (env.GetChannelMask mixFormat)),
    (DspFormat.Pcm24, BuildFormat KSDATAFORMAT_SUBTYPE_PCM 24 24 m_createDeviceFormat.Format.nSamplesPerSec mixFormat.Format.nChannels (env.GetChannelMask mixFormat)),
    (DspFormat.Pcm32, BuildFormat KSDATAFORMAT_SUBTYPE_PCM 32 24 m_createDeviceFormat.Format.nSamplesPerSec mixFormat.Format.nChannels (env.GetChannelMask mixFormat)),
    (DspFormat.Pcm16, BuildFormat KSDATAFORMAT_SUBTYPE_PCM 16 16 m_createDeviceFormat.Format.nSamplesPerSec mixFormat.Format.nChannels (env.GetChannelMask mixFormat)),

    (DspFormat.Float, BuildFormat KSDATAFORMAT_SUBTYPE_IEEE_FLOAT 32 32 mixFormat.Format.nSamplesPerSec mixFormat.Format.nChannels (env.GetChannelMask mixFormat)),
    (DspFormat.Pcm32, BuildFormat KSDATAFORMAT_SUBTYPE_PCM 32 32 mixFormat.Format.nSamplesPerSec mixFormat.Format.nChannels (env.GetChannelMask mixFormat)),
    (DspFormat.Pcm24, BuildFormat KSDATAFORMAT_SUBTYPE_PCM 24 24 mixFormat.Format.nSamplesPerSec mixFormat.Format.nChannels (env.GetChannelMask mixFormat)),
    (DspFormat.Pcm32, BuildFormat KSDATAFORMAT_SUBTYPE_PCM 32 24 mixFormat.Format.nSamplesPerSec mixFormat.Format.nChannels (env.GetChannelMask mixFormat)),
    (DspFormat.Pcm16, BuildFormat KSDATAFORMAT_SUBTYPE_PCM 16 16 mixFormat.Format.nSamplesPerSec mixFormat.Format.nChannels (env.GetChannelMask mixFormat)) ]

/-- The loop `for (const auto& f : priorities)` of `OnCreateDevice`. -/
def OnCreateDevice.scan (env : Env) (audioClient : IAudioClient) :
    List (DspFormat × WAVEFORMATEXTENSIBLE) → M DeviceManager Unit
  | [] => pure ()
  | f :: rest => do
    let hr ← call
      (Event.IsFormatSupported AUDCLNT_SHAREMODE_EXCLUSIVE (some (WaveFormat.extensible f.2)))
      (audioClient.IsFormatSupported AUDCLNT_SHAREMODE_EXCLUSIVE (some (WaveFormat.extensible f.2)))
    if SUCCEEDED hr then do
      update fun s => { s with m_device := { s.m_device with dspFormat := f.1 } }
      let copy ← CopyWaveFormat env (WaveFormat.extensible f.2)
      update fun s => { s with m_device := { s.m_device with format := some copy } }
    else
      OnCreateDevice.scan env audioClient rest

/-- The `try` block of `OnCreateDevice`. -/
def OnCreateDevice.tryBlock (env : Env) : M DeviceManager LRESULT := do
  onDevice (CreateAudioClient env (← read).m_createDeviceSettings)
  match (← read).m_device.audioClient with
  | none => return 1
  | some audioClient =>
    let got ← call Event.GetMixFormat audioClient.GetMixFormat
    ThrowIfFailed got.1
    let mixFormat := got.2
    update fun s => { s with m_device := { s.m_device with bufferDuration := 200 } }
    let format ← deref (← read).m_createDeviceFormat
    if env.DspFormatFromWaveFormat format = DspFormat.Unknown then
      -- Exclusive bitstreaming.
      if !(← read).m_device.exclusive then
        return 1
      update fun s => { s with m_device :=
        { s.m_device with dspFormat := DspFormat.Unknown, format := s.m_createDeviceFormat } }
    else if (← read).m_device.exclusive then
      -- Exclusive.
      OnCreateDevice.scan env audioClient (OnCreateDevice.priorities env format mixFormat)
    else
      -- Shared.
      update fun s => { s with m_device :=
        { s.m_device with dspFormat := DspFormat.Float, format := some mixFormat } }
    let device := (← read).m_device
    let mode := if device.exclusive then AUDCLNT_SHAREMODE_EXCLUSIVE
      else AUDCLNT_SHAREMODE_SHARED
    let hr ← call
      (Event.Initialize mode 0 (MILLISECONDS_TO_100NS_UNITS device.bufferDuration) 0 device.format)
      (audioClient.Initialize mode 0 (MILLISECONDS_TO_100NS_UNITS device.bufferDuration) 0
        device.format)
    ThrowIfFailed hr
    let render ← call (Event.GetService IID.IAudioRenderClient) audioClient.GetService_RenderClient
    update fun s => { s with m_device := { s.m_device with
      audioRenderClient := if FAILED render.1 then none else some render.2 } }
    ThrowIfFailed render.1
    let clock ← call (Event.GetService IID.IAudioClock) audioClient.GetService_Clock
    update fun s => { s with m_device := { s.m_device with
      audioClock := if FAILED clock.1 then none else some clock.2 } }
    ThrowIfFailed clock.1
    return 0

def OnCreateDevice (env : Env) : M DeviceManager LRESULT := do
  if !(← read).m_queuedCreateDevice then
    return 1
  assert env (do return (← read).m_createDeviceFormat.isSome)
  assert env (do return (← read).m_createDeviceSettings.isSome)
  update fun s => { s with m_queuedCreateDevice := false }
  ReleaseDevice env
  tryCatch (OnCreateDevice.tryBlock env)
    (fun _ => some (do
      ReleaseDevice env
      return 1))

def WindowProc (env : Env) (msg : Nat) : M DeviceManager LRESULT :=
  if msg = WM_DESTROY then do
    if (← read).m_queuedDestroy then
      call Event.PostQuitMessage ()
    return 0
  else if msg = WM_CHECK_BITSTREAM_FORMAT then OnCheckBitstreamFormat env
  else if msg = WM_CREATE_DEVICE then OnCreateDevice env
  else call (Event.DefWindowProc msg) (env.DefWindowProc msg)

/-- The call `SendMessage(m_hWindow, msg, 0, 0)`: the window procedure runs the message
on the worker thread and the sender waits for its result. -/
def SendMessage (env : Env) (msg : Nat) : M DeviceManager LRESULT :=
  WindowProc env msg

def BitstreamFormatSupported (env : Env) (format : SharedWaveFormat)
    (pSettings : Option ISettings) : M DeviceManager Bool := do
  assert env (pure format.isSome)
  assert env (pure pSettings.isSome)
  update fun s => { s with
    m_checkBitstreamFormat := format
    m_checkBitstreamSettings := pSettings
    m_queuedCheckBitstream := true }
  let ret := decide ((← SendMessage env WM_CHECK_BITSTREAM_FORMAT) = 0)
  update fun s => { s with m_checkBitstreamFormat := none, m_checkBitstreamSettings := none }
  assert env (do return decide ((← read).m_queuedCheckBitstream = false))
  return ret

/-- The method `CreateDevice`; the device written to the reference parameter is the second
component of the value. -/
def CreateDevice (env : Env) (format : SharedWaveFormat) (pSettings : Option ISettings) :
    M DeviceManager (Bool × AudioDevice) := do
  assert env (pure format.isSome)
  assert env (pure pSettings.isSome)
  update fun s => { s with
    m_createDeviceFormat := format
    m_createDeviceSettings := pSettings
    m_queuedCreateDevice := true }
  let ret := decide ((← SendMessage env WM_CREATE_DEVICE) = 0)
  update fun s => { s with m_createDeviceFormat := none, m_createDeviceSettings := none }
  assert env (do return decide ((← read).m_queuedCreateDevice = false))
  let device := (← read).m_device
  return (ret, device)

/-! ## Definitions used in the statements and proofs -/

/-- No reference to a sub-resource of the device is held outside the engine: the value
of the lambda `areLastInstances`. -/
def soleOwner (d : AudioDevice) : Bool :=
  d.audioClock.all (fun p => IsLastInstance p.AddRef) &&
  d.audioRenderClient.all (fun p => IsLastInstance p.AddRef) &&
  d.audioClient.all (fun p => IsLastInstance p.AddRef)

/-- The call the scan makes for one candidate. -/
def probe (f : DspFormat × WAVEFORMATEXTENSIBLE) : Event :=
  Event.IsFormatSupported AUDCLNT_SHAREMODE.AUDCLNT_SHAREMODE_EXCLUSIVE (some (WaveFormat.extensible f.2))

/-- Whether the endpoint accepts a candidate in exclusive mode. -/
def accepts (audioClient : IAudioClient) (f : DspFormat × WAVEFORMATEXTENSIBLE) : Bool :=
  SUCCEEDED (audioClient.IsFormatSupported AUDCLNT_SHAREMODE.AUDCLNT_SHAREMODE_EXCLUSIVE
    (some (WaveFormat.extensible f.2)))

/-- An outcome after the calls of `t`. -/
def Outcome.after {σ α : Type} (t : List Event) (o : Outcome σ α) : Outcome σ α :=
  ⟨o.result, o.state, t ++ o.trace⟩

/-- The friendly name read from the endpoint at index `j` of a collection. -/
def friendlyNameAt (collection : IMMDeviceCollection) (j : Nat) : String :=
  ((collection.Item j).2.OpenPropertyStore.2.GetValue PROPERTYKEY.PKEY_Device_FriendlyName).2

/-- The calls of endpoint resolution that come before the activation of a client. -/
def Event.beforeActivation : Event → Bool
  | Event.GetSerial => true
  | Event.GetOuputDevice => true
  | Event.CoCreateInstance => true
  | Event.GetDefaultAudioEndpoint => true
  | Event.EnumAudioEndpoints => true
  | Event.GetCount => true
  | Event.Item _ => true
  | Event.OpenPropertyStore => true
  | Event.GetValue _ => true
  | _ => false

/-- The share mode `OnCreateDevice` passes to `Initialize`. -/
def shareMode (d : AudioDevice) : AUDCLNT_SHAREMODE :=
  if d.exclusive then AUDCLNT_SHAREMODE.AUDCLNT_SHAREMODE_EXCLUSIVE
  else AUDCLNT_SHAREMODE.AUDCLNT_SHAREMODE_SHARED

/-- The call of `Initialize` that `OnCreateDevice` makes for a device. -/
def initialization (d : AudioDevice) : Event :=
  Event.Initialize (shareMode d) 0 (MILLISECONDS_TO_100NS_UNITS d.bufferDuration) 0 d.format

/-- The end of the `try` block of `OnCreateDevice`, from the call of `Initialize` on, as
a decision tree; `s` is the engine after the format was chosen. -/
def finished (c : IAudioClient) (s : DeviceManager) : Outcome DeviceManager LRESULT :=
  if FAILED (c.Initialize (shareMode s.m_device) 0
      (MILLISECONDS_TO_100NS_UNITS s.m_device.bufferDuration) 0 s.m_device.format) then
    ⟨Result.thrown (Exception.hresult (c.Initialize (shareMode s.m_device) 0
      (MILLISECONDS_TO_100NS_UNITS s.m_device.bufferDuration) 0 s.m_device.format)), s,
      [initialization s.m_device]⟩
  else if FAILED c.GetService_RenderClient.1 then
    ⟨Result.thrown (Exception.hresult c.GetService_RenderClient.1),
      { s with m_device := { s.m_device with audioRenderClient := none } },
      [initialization s.m_device, Event.GetService IID.IAudioRenderClient]⟩
  else if FAILED c.GetService_Clock.1 then
    ⟨Result.thrown (Exception.hresult c.GetService_Clock.1),
      { s with m_device := { s.m_device with
          audioRenderClient := some c.GetService_RenderClient.2, audioClock := none } },
      [initialization s.m_device, Event.GetService IID.IAudioRenderClient,
        Event.GetService IID.IAudioClock]⟩
  else
    ⟨Result.value 0,
      { s with m_device := { s.m_device with
          audioRenderClient := some c.GetService_RenderClient.2,
          audioClock := some c.GetService_Clock.2 } },
      [initialization s.m_device, Event.GetService IID.IAudioRenderClient,
        Event.GetService IID.IAudioClock]⟩

/-- The `try` block of `OnCreateDevice` after a client was activated, as a decision
tree; `s` is the engine after `CreateAudioClient`. -/
def negotiated (env : Env) (c : IAudioClient) (s : DeviceManager) :
    Outcome DeviceManager LRESULT :=
  if FAILED c.GetMixFormat.1 then
    ⟨Result.thrown (Exception.hresult c.GetMixFormat.1), s, [Event.GetMixFormat]⟩
  else
    match s.m_createDeviceFormat with
    | none =>
      ⟨Result.fatal Fatal.null_dereference,
        { s with m_device := { s.m_device with bufferDuration := 200 } }, [Event.GetMixFormat]⟩
    | some format =>
      if env.DspFormatFromWaveFormat format = DspFormat.Unknown then
        if s.m_device.exclusive then
          (finished c { s with m_device := { s.m_device with
            bufferDuration := 200, dspFormat := DspFormat.Unknown, format := some format } }).after
            [Event.GetMixFormat]
        else
          ⟨Result.value 1, { s with m_device := { s.m_device with bufferDuration := 200 } },
            [Event.GetMixFormat]⟩
      else if s.m_device.exclusive then
        match (OnCreateDevice.priorities env format c.GetMixFormat.2).find? (accepts c) with
        | none =>
          (finished c { s with m_device := { s.m_device with bufferDuration := 200 } }).after
            (Event.GetMixFormat ::
              (OnCreateDevice.priorities env format c.GetMixFormat.2).map probe)
        | some f =>
          if env.format_bad_alloc (WaveFormat.extensible f.2) then
            ⟨Result.thrown Exception.bad_alloc,
              { s with m_device := { s.m_device with bufferDuration := 200, dspFormat := f.1 } },
              Event.GetMixFormat ::
                (((OnCreateDevice.priorities env format c.GetMixFormat.2).takeWhile
                  (fun g => !accepts c g)).map probe ++ [probe f])⟩
          else
            (finished c { s with m_device := { s.m_device with
              bufferDuration := 200, dspFormat := f.1,
              format := some (WaveFormat.extensible f.2) } }).after
              (Event.GetMixFormat ::
                (((OnCreateDevice.priorities env format c.GetMixFormat.2).takeWhile
                  (fun g => !accepts c g)).map probe ++ [probe f]))
      else
        (finished c { s with m_device := { s.m_device with
          bufferDuration := 200, dspFormat := DspFormat.Float,
          format := some c.GetMixFormat.2 } }).after [Event.GetMixFormat]

/-- The `try` block of `OnCreateDevice` as a decision tree over the outcome of
`CreateAudioClient`. -/
def attempted (env : Env) (s : DeviceManager) : Outcome DeviceManager LRESULT :=
  match (CreateAudioClient env s.m_createDeviceSettings s.m_device).result with
  | Result.thrown e =>
    ⟨Result.thrown e,
      { s with m_device := (CreateAudioClient env s.m_createDeviceSettings s.m_device).state },
      (CreateAudioClient env s.m_createDeviceSettings s.m_device).trace⟩
  | Result.fatal why =>
    ⟨Result.fatal why,
      { s with m_device := (CreateAudioClient env s.m_createDeviceSettings s.m_device).state },
      (CreateAudioClient env s.m_createDeviceSettings s.m_device).trace⟩
  | Result.value _ =>
    match (CreateAudioClient env s.m_createDeviceSettings s.m_device).state.audioClient with
    | none =>
      ⟨Result.value 1,
        { s with m_device := (CreateAudioClient env s.m_createDeviceSettings s.m_device).state },
        (CreateAudioClient env s.m_createDeviceSettings s.m_device).trace⟩
    | some c =>
      (negotiated env c
        { s with m_device := (CreateAudioClient env s.m_createDeviceSettings s.m_device).state }).after
        (CreateAudioClient env s.m_createDeviceSettings s.m_device).trace

/-- The engine `t` differs from `s` in the held device at most. -/
def sameRequest (s t : DeviceManager) : Prop :=
  t.m_queuedDestroy = s.m_queuedDestroy ∧
  t.m_queuedCheckBitstream = s.m_queuedCheckBitstream ∧
  t.m_queuedCreateDevice = s.m_queuedCreateDevice ∧
  t.m_checkBitstreamFormat = s.m_checkBitstreamFormat ∧
  t.m_checkBitstreamSettings = s.m_checkBitstreamSettings ∧
  t.m_createDeviceFormat = s.m_createDeviceFormat ∧
  t.m_createDeviceSettings = s.m_createDeviceSettings

/-- The engine when the `try` block of `OnCreateDevice` is entered for a request. -/
def entered (st : DeviceManager) (format : WaveFormat) (settings : ISettings) : DeviceManager :=
  { st with
    m_device := {}
    m_createDeviceFormat := some format
    m_createDeviceSettings := some settings
    m_queuedCreateDevice := false }

/-- The candidate list of the exclusive scan in the words of the specification: five
formats at the desired sample rate, then the same five at the sample rate of the mix
format, all with the channel count and channel mask of the mix format. -/
def candidates (desiredRate mixRate channels mask : Nat) :
    List (DspFormat × WAVEFORMATEXTENSIBLE) :=
  [desiredRate, mixRate].flatMap fun rate =>
    [ (DspFormat.Float, BuildFormat GUID.KSDATAFORMAT_SUBTYPE_IEEE_FLOAT 32 32 rate channels mask),
      (DspFormat.Pcm32, BuildFormat GUID.KSDATAFORMAT_SUBTYPE_PCM 32 32 rate channels mask),
      (DspFormat.Pcm24, BuildFormat GUID.KSDATAFORMAT_SUBTYPE_PCM 24 24 rate channels mask),
      (DspFormat.Pcm32, BuildFormat GUID.KSDATAFORMAT_SUBTYPE_PCM 32 24 rate channels mask),
      (DspFormat.Pcm16, BuildFormat GUID.KSDATAFORMAT_SUBTYPE_PCM 16 16 rate channels mask) ]

/-! ## Example platforms and requests -/

namespace Example

def clock : IAudioClock := { AddRef := 2 }

def renderClient : IAudioRenderClient := { AddRef := 2 }

/-- Stereo 16-bit PCM at 44.1 kHz. -/
def pcm16 : WaveFormat :=
  WaveFormat.plain
    { wFormatTag := 1
      nChannels := 2
      nSamplesPerSec := 44100
      nAvgBytesPerSec := 176400
      nBlockAlign := 4
      wBitsPerSample := 16
      cbSize := 0 }

/-- A Dolby AC-3 bitstream over S/PDIF. -/
def ac3 : WaveFormat :=
  WaveFormat.plain
    { wFormatTag := 0x92
      nChannels := 2
      nSamplesPerSec := 48000
      nAvgBytesPerSec := 192000
      nBlockAlign := 4
      wBitsPerSample := 16
      cbSize := 0 }

/-- Stereo 32-bit float at 48 kHz. -/
def mix : WaveFormat :=
  WaveFormat.plain
    { wFormatTag := 3
      nChannels := 2
      nSamplesPerSec := 48000
      nAvgBytesPerSec := 384000
      nBlockAlign := 8
      wBitsPerSample := 32
      cbSize := 0 }

def client (accepts : Option WaveFormat → Bool) (initializes : Option WaveFormat → Bool) :
    IAudioClient :=
  { AddRef := 2
    GetMixFormat := (S_OK, mix)
    IsFormatSupported := fun _ f => if accepts f then S_OK else AUDCLNT_E_UNSUPPORTED_FORMAT
    Initialize := fun _ _ _ _ f => if initializes f then S_OK else E_POINTER
    GetService_RenderClient := (S_OK, renderClient)
    GetService_Clock := (S_OK, clock) }

/-- A client that supports every format and, as the platform does, refuses to be
initialised without a format. -/
def accepting : IAudioClient := client (fun _ => true) (fun f => f.isSome)

/-- A client that supports no format in exclusive mode. -/
def rejecting : IAudioClient := client (fun _ => false) (fun f => f.isSome)

/-- A client that supports no format in exclusive mode and whose `Initialize` succeeds
whatever it is given. -/
def lenient : IAudioClient := client (fun _ => false) (fun _ => true)

def endpoint (name : String) (c : IAudioClient) : IMMDevice :=
  { OpenPropertyStore := (S_OK, { GetValue := fun key =>
      match key with
      | PROPERTYKEY.PKEY_Device_FriendlyName => (S_OK, name)
      | PROPERTYKEY.PKEY_DeviceInterface_FriendlyName => (S_OK, "Adapter")
      | PROPERTYKEY.PKEY_Device_DeviceDesc => (S_OK, "Speakers") })
    Activate := (S_OK, c) }

def collection (endpoints : List IMMDevice) (fallback : IMMDevice) : IMMDeviceCollection :=
  { GetCount := (S_OK, endpoints.length)
    Item := fun i =>
      match endpoints.get? i with
      | some d => (S_OK, d)
      | none => (E_FAIL, fallback) }

/-- A debug build on a platform with the default endpoint `dflt` and the active render
endpoints `endpoints`, where no allocation fails. -/
def env (dflt : IMMDevice) (endpoints : List IMMDevice) : Env :=
  { NDEBUG := false
    DspFormatFromWaveFormat := fun f =>
      if f.Format.wFormatTag = 1 then
        (if f.Format.wBitsPerSample = 16 then DspFormat.Pcm16 else DspFormat.Pcm32)
      else if f.Format.wFormatTag = 3 then DspFormat.Float
      else DspFormat.Unknown
    GetChannelMask := fun f => if f.Format.nChannels = 2 then 3 else 0
    wstring_bad_alloc := fun _ => false
    format_bad_alloc := fun _ => false
    CoCreateInstance := (S_OK,
      { GetDefaultAudioEndpoint := (S_OK, dflt)
        EnumAudioEndpoints := (S_OK, collection endpoints dflt) })
    DefWindowProc := fun _ => 0 }

def settings (name : Option String) (exclusive : Bool) : ISettings :=
  { GetSerial := 7, GetOuputDevice := (S_OK, name, if exclusive then 1 else 0) }

/-- An engine that holds a device created earlier, with no request queued. -/
def holding (c : IAudioClient) : DeviceManager :=
  { m_device :=
      { friendlyName := some "Default"
        audioClient := some c
        audioRenderClient := some renderClient
        audioClock := some clock
        format := some mix
        dspFormat := DspFormat.Float
        bufferDuration := 200 } }

end Example

/-! ## Theorems -/

/-! ## Evaluation of procedures -/

section Evaluation

variable {σ α β : Type}

theorem bind_apply (m : M σ α) (f : α → M σ β) (s : σ) :
    (m >>= f) s = M.andThen m f s := rfl

theorem pure_apply (a : α) (s : σ) : (Pure.pure a : M σ α) s = ⟨Result.value a, s, []⟩ := rfl

theorem assert_ok (env : Env) (cond : M σ Bool) (s : σ)
    (h : cond s = ⟨Result.value true, s, []⟩) :
    assert env cond s = ⟨Result.value (), s, []⟩ := by
  unfold assert
  split <;> simp [bind_apply, pure_apply, M.andThen, h]

end Evaluation

theorem areLastInstances_eval (s : DeviceManager) :
    (ReleaseDevice.areLastInstances s).result = Result.value (soleOwner s.m_device) ∧
    (ReleaseDevice.areLastInstances s).trace = [] ∧
    ∃ d, (ReleaseDevice.areLastInstances s).state = { s with m_device := d } := by
  rcases s with ⟨⟨fn, an, en, cl, rc, ck, fmt, dsp, bd, ser, ex, df⟩, a, b, c, d, e, f, g⟩
  cases ck <;> cases rc <;> cases cl <;>
    simp [ReleaseDevice.areLastInstances, soleOwner, bind_apply, pure_apply, M.andThen, M.read,
      M.update, ite_apply] <;>
    (repeat (split <;>
      simp_all [ReleaseDevice.areLastInstances, soleOwner, bind_apply, pure_apply, M.andThen, M.read,
        M.update, ite_apply]))

theorem ReleaseDevice_eq (env : Env) (s : DeviceManager)
    (h : env.NDEBUG = true ∨ soleOwner s.m_device = true) :
    ReleaseDevice env s = ⟨Result.value (), { s with m_device := {} }, [Event.ReleaseDevice]⟩ := by
  obtain ⟨h1, h2, d, h3⟩ := areLastInstances_eval s
  by_cases hn : env.NDEBUG = true
  · simp [ReleaseDevice, assert, bind_apply, pure_apply, M.andThen, M.call, M.update, hn]
  · have hs : soleOwner s.m_device = true := by
      rcases h with h | h
      · exact absurd h hn
      · exact h
    simp [ReleaseDevice, assert, bind_apply, pure_apply, M.andThen, M.call, M.update, hn, h1, h2,
      h3, hs]

theorem ReleaseDevice_frame (env : Env) (s : DeviceManager) :
    ∃ d, (ReleaseDevice env s).state = { s with m_device := d } := by
  obtain ⟨h1, h2, d, h3⟩ := areLastInstances_eval s
  by_cases hn : env.NDEBUG = true
  · exact ⟨{}, by simp [ReleaseDevice, assert, bind_apply, pure_apply, M.andThen, M.call, M.update, hn]⟩
  · cases hs : soleOwner s.m_device
    · exact ⟨d, by
        simp [ReleaseDevice, assert, bind_apply, pure_apply, M.andThen, M.call, M.update, M.abort,
          hn, h1, h2, h3, hs]⟩
    · exact ⟨{}, by
        simp [ReleaseDevice, assert, bind_apply, pure_apply, M.andThen, M.call, M.update, hn, h1, h2,
          h3, hs]⟩

theorem scan_eval (env : Env) (c : IAudioClient) (l : List (DspFormat × WAVEFORMATEXTENSIBLE))
    (s : DeviceManager) :
    OnCreateDevice.scan env c l s =
      match l.find? (accepts c) with
      | none => ⟨Result.value (), s, l.map probe⟩
      | some f =>
        if env.format_bad_alloc (WaveFormat.extensible f.2) then
          ⟨Result.thrown Exception.bad_alloc,
            { s with m_device := { s.m_device with dspFormat := f.1 } },
            (l.takeWhile (fun g => !accepts c g)).map probe ++ [probe f]⟩
        else
          ⟨Result.value (),
            { s with m_device :=
              { s.m_device with dspFormat := f.1, format := some (WaveFormat.extensible f.2) } },
            (l.takeWhile (fun g => !accepts c g)).map probe ++ [probe f]⟩ := by
  induction l generalizing s with
  | nil => simp [OnCreateDevice.scan, pure_apply]
  | cons f rest ih =>
    have hacc : SUCCEEDED (c.IsFormatSupported AUDCLNT_SHAREMODE.AUDCLNT_SHAREMODE_EXCLUSIVE
          (some (WaveFormat.extensible f.2))) = accepts c f := rfl
    cases hf : accepts c f
    · rw [hf] at hacc
      simp only [OnCreateDevice.scan, bind_apply, M.andThen, M.call, hacc, List.find?_cons, hf,
        List.takeWhile_cons]
      cases hfind : rest.find? (accepts c) with
      | none => simp [ih, hfind, probe]
      | some g =>
        cases hb : env.format_bad_alloc (WaveFormat.extensible g.2) <;> simp [ih, hfind, probe, hb]
    · rw [hf] at hacc
      cases hb : env.format_bad_alloc (WaveFormat.extensible f.2) <;>
        simp [OnCreateDevice.scan, bind_apply, pure_apply, M.andThen, M.call, M.update, M.raise,
          CopyWaveFormat, hacc, List.find?_cons, hf, List.takeWhile_cons, probe, hb]

theorem GetDevicePropertyString_some {σ : Type} (env : Env) (store : IPropertyStore)
    (key : PROPERTYKEY) (s : σ) :
    GetDevicePropertyString env (some store) key s =
      if FAILED (store.GetValue key).1 then
        ⟨Result.thrown (Exception.hresult (store.GetValue key).1), s, [Event.GetValue key]⟩
      else if env.wstring_bad_alloc (store.GetValue key).2 then
        ⟨Result.thrown Exception.bad_alloc, s, [Event.GetValue key]⟩
      else ⟨Result.value (store.GetValue key).2, s, [Event.GetValue key]⟩ := by
  by_cases h1 : FAILED (store.GetValue key).1 = true
  · simp [GetDevicePropertyString, assert_ok, bind_apply, pure_apply, M.andThen, M.call, M.raise,
      ThrowIfFailed, deref, make_shared_wstring, h1]
  · by_cases h2 : env.wstring_bad_alloc (store.GetValue key).2 = true
    · simp [GetDevicePropertyString, assert_ok, bind_apply, pure_apply, M.andThen, M.call, M.raise,
        ThrowIfFailed, deref, make_shared_wstring, h1, h2]
    · simp [GetDevicePropertyString, assert_ok, bind_apply, pure_apply, M.andThen, M.call, M.raise,
        ThrowIfFailed, deref, make_shared_wstring, h1, h2]

theorem wcscmp_eq_zero (a b : String) : wcscmp a b = 0 ↔ a = b := by
  unfold wcscmp
  split
  · simp [*]
  · split <;> simp [*]

theorem loop_succ (env : Env) (name : String) (coll : IMMDeviceCollection) (n i : Nat)
    (locals : Option IMMDevice × Option IPropertyStore) (d : AudioDevice) :
    CreateAudioClient.loop env name coll (n + 1) i locals d =
      if FAILED (coll.Item i).1 then
        ⟨Result.thrown (Exception.hresult (coll.Item i).1), d, [Event.Item i]⟩
      else if FAILED (coll.Item i).2.OpenPropertyStore.1 then
        ⟨Result.thrown (Exception.hresult (coll.Item i).2.OpenPropertyStore.1), d,
          [Event.Item i, Event.OpenPropertyStore]⟩
      else if FAILED ((coll.Item i).2.OpenPropertyStore.2.GetValue
          PROPERTYKEY.PKEY_Device_FriendlyName).1 then
        ⟨Result.thrown (Exception.hresult ((coll.Item i).2.OpenPropertyStore.2.GetValue
          PROPERTYKEY.PKEY_Device_FriendlyName).1), d,
          [Event.Item i, Event.OpenPropertyStore, Event.GetValue PROPERTYKEY.PKEY_Device_FriendlyName]⟩
      else if env.wstring_bad_alloc (friendlyNameAt coll i) then
        ⟨Result.thrown Exception.bad_alloc, d,
          [Event.Item i, Event.OpenPropertyStore, Event.GetValue PROPERTYKEY.PKEY_Device_FriendlyName]⟩
      else if name = friendlyNameAt coll i then
        (CreateAudioClient.loop env name coll n (i + 1)
          (some (coll.Item i).2, some (coll.Item i).2.OpenPropertyStore.2)
          { d with friendlyName := some (friendlyNameAt coll i) }).after
          [Event.Item i, Event.OpenPropertyStore, Event.GetValue PROPERTYKEY.PKEY_Device_FriendlyName]
      else
        (CreateAudioClient.loop env name coll n (i + 1) (none, none)
          { d with friendlyName := none }).after
          [Event.Item i, Event.OpenPropertyStore, Event.GetValue PROPERTYKEY.PKEY_Device_FriendlyName] := by
  simp only [CreateAudioClient.loop, friendlyNameAt]
  generalize coll.Item i = item
  obtain ⟨hr1, dev⟩ := item
  generalize hst : dev.OpenPropertyStore = st
  obtain ⟨hr2, store⟩ := st
  generalize hp : store.GetValue PROPERTYKEY.PKEY_Device_FriendlyName = p
  obtain ⟨hr3, nm⟩ := p
  by_cases h1 : FAILED hr1 = true <;> by_cases h2 : FAILED hr2 = true <;>
    by_cases h3 : FAILED hr3 = true <;> by_cases h4 : env.wstring_bad_alloc nm = true <;>
    by_cases h5 : name = nm <;>
    simp [CreateAudioClient.loop, bind_apply, pure_apply, M.andThen, M.call, M.raise, M.update,
      ThrowIfFailed, GetDevicePropertyString_some, Outcome.after, wcscmp_eq_zero, h1, h2, h3, h4, h5,
      hst, hp, ite_apply]

theorem loop_spec (env : Env) (name : String) (coll : IMMDeviceCollection) (n : Nat) :
    ∀ (i : Nat) (locals : Option IMMDevice × Option IPropertyStore) (d : AudioDevice),
      (∀ why, (CreateAudioClient.loop env name coll n i locals d).result ≠ Result.fatal why) ∧
      (∃ fnm, (CreateAudioClient.loop env name coll n i locals d).state =
        { d with friendlyName := fnm }) ∧
      (∀ e ∈ (CreateAudioClient.loop env name coll n i locals d).trace,
        e.beforeActivation = true) ∧
      ((∀ j, i ≤ j → j < i + n → friendlyNameAt coll j ≠ name) → locals.1 = none →
        ∀ v, (CreateAudioClient.loop env name coll n i locals d).result = Result.value v →
          v.1 = none) ∧
      ((locals.1.isSome = true → locals.2.isSome = true) →
        ∀ v, (CreateAudioClient.loop env name coll n i locals d).result = Result.value v →
          v.1.isSome = true → v.2.isSome = true) := by
  induction n with
  | zero =>
    intro i locals d
    refine ⟨?_, ⟨d.friendlyName, ?_⟩, ?_, ?_, ?_⟩ <;>
      simp [CreateAudioClient.loop, pure_apply]
  | succ n ih =>
    intro i locals d
    rw [loop_succ]
    split_ifs with h1 h2 h3 h4 h5
    · exact ⟨by simp, ⟨d.friendlyName, rfl⟩, by simp [Event.beforeActivation], by simp, by simp⟩
    · exact ⟨by simp, ⟨d.friendlyName, rfl⟩, by simp [Event.beforeActivation], by simp, by simp⟩
    · exact ⟨by simp, ⟨d.friendlyName, rfl⟩, by simp [Event.beforeActivation], by simp, by simp⟩
    · exact ⟨by simp, ⟨d.friendlyName, rfl⟩, by simp [Event.beforeActivation], by simp, by simp⟩
    · obtain ⟨a1, ⟨fnm, a2⟩, a3, _, a5⟩ := ih (i + 1)
        (some (coll.Item i).2, some (coll.Item i).2.OpenPropertyStore.2)
        { d with friendlyName := some (friendlyNameAt coll i) }
      refine ⟨a1, ⟨fnm, ?_⟩, ?_, ?_, ?_⟩
      · simp [Outcome.after, a2]
      · intro e he
        simp only [Outcome.after, List.mem_append] at he
        rcases he with he | he
        · simp at he
          rcases he with he | he | he <;> simp [he, Event.beforeActivation]
        · exact a3 e he
      · intro hall
        exact absurd h5.symm (hall i (le_refl i) (by omega))
      · intro _
        exact a5 (by simp)
    · obtain ⟨a1, ⟨fnm, a2⟩, a3, a4, a5⟩ := ih (i + 1) (none, none) { d with friendlyName := none }
      refine ⟨a1, ⟨fnm, ?_⟩, ?_, ?_, ?_⟩
      · simp [Outcome.after, a2]
      · intro e he
        simp only [Outcome.after, List.mem_append] at he
        rcases he with he | he
        · simp at he
          rcases he with he | he | he <;> simp [he, Event.beforeActivation]
        · exact a3 e he
      · intro hall _
        exact a4 (fun j hj1 hj2 => hall j (by omega) (by omega)) rfl
      · intro _
        exact a5 (by simp)

theorem activate_none (env : Env) (store : Option IPropertyStore) (d : AudioDevice) :
    CreateAudioClient.activate env none store d = ⟨Result.value (), d, []⟩ := by
  simp [CreateAudioClient.activate, pure_apply]

theorem activate_some (env : Env) (dev : IMMDevice) (store : IPropertyStore) (d : AudioDevice) :
    CreateAudioClient.activate env (some dev) (some store) d =
      if FAILED (store.GetValue PROPERTYKEY.PKEY_DeviceInterface_FriendlyName).1 then
        ⟨Result.thrown (Exception.hresult
            (store.GetValue PROPERTYKEY.PKEY_DeviceInterface_FriendlyName).1), d,
          [Event.GetValue PROPERTYKEY.PKEY_DeviceInterface_FriendlyName]⟩
      else if env.wstring_bad_alloc
          (store.GetValue PROPERTYKEY.PKEY_DeviceInterface_FriendlyName).2 then
        ⟨Result.thrown Exception.bad_alloc, d,
          [Event.GetValue PROPERTYKEY.PKEY_DeviceInterface_FriendlyName]⟩
      else if FAILED (store.GetValue PROPERTYKEY.PKEY_Device_DeviceDesc).1 then
        ⟨Result.thrown (Exception.hresult (store.GetValue PROPERTYKEY.PKEY_Device_DeviceDesc).1),
          { d with
            adapterName := some (store.GetValue PROPERTYKEY.PKEY_DeviceInterface_FriendlyName).2 },
          [Event.GetValue PROPERTYKEY.PKEY_DeviceInterface_FriendlyName,
            Event.GetValue PROPERTYKEY.PKEY_Device_DeviceDesc]⟩
      else if env.wstring_bad_alloc (store.GetValue PROPERTYKEY.PKEY_Device_DeviceDesc).2 then
        ⟨Result.thrown Exception.bad_alloc,
          { d with
            adapterName := some (store.GetValue PROPERTYKEY.PKEY_DeviceInterface_FriendlyName).2 },
          [Event.GetValue PROPERTYKEY.PKEY_DeviceInterface_FriendlyName,
            Event.GetValue PROPERTYKEY.PKEY_Device_DeviceDesc]⟩
      else if FAILED dev.Activate.1 then
        ⟨Result.thrown (Exception.hresult dev.Activate.1),
          { d with
            adapterName := some (store.GetValue PROPERTYKEY.PKEY_DeviceInterface_FriendlyName).2
            endpointName := some (store.GetValue PROPERTYKEY.PKEY_Device_DeviceDesc).2
            audioClient := none },
          [Event.GetValue PROPERTYKEY.PKEY_DeviceInterface_FriendlyName,
            Event.GetValue PROPERTYKEY.PKEY_Device_DeviceDesc, Event.Activate]⟩
      else
        ⟨Result.value (),
          { d with
            adapterName := some (store.GetValue PROPERTYKEY.PKEY_DeviceInterface_FriendlyName).2
            endpointName := some (store.GetValue PROPERTYKEY.PKEY_Device_DeviceDesc).2
            audioClient := some dev.Activate.2 },
          [Event.GetValue PROPERTYKEY.PKEY_DeviceInterface_FriendlyName,
            Event.GetValue PROPERTYKEY.PKEY_Device_DeviceDesc, Event.Activate]⟩ := by
  simp only [CreateAudioClient.activate]
  by_cases h1 : FAILED (store.GetValue PROPERTYKEY.PKEY_DeviceInterface_FriendlyName).1 = true
  · simp [bind_apply, pure_apply, M.andThen, M.call, M.raise, M.update, ThrowIfFailed,
      GetDevicePropertyString_some, h1]
  by_cases h2 : env.wstring_bad_alloc (store.GetValue PROPERTYKEY.PKEY_DeviceInterface_FriendlyName).2 = true
  · simp [bind_apply, pure_apply, M.andThen, M.call, M.raise, M.update, ThrowIfFailed,
      GetDevicePropertyString_some, h1, h2]
  by_cases h3 : FAILED (store.GetValue PROPERTYKEY.PKEY_Device_DeviceDesc).1 = true
  · simp [bind_apply, pure_apply, M.andThen, M.call, M.raise, M.update, ThrowIfFailed,
      GetDevicePropertyString_some, h1, h2, h3]
  by_cases h4 : env.wstring_bad_alloc (store.GetValue PROPERTYKEY.PKEY_Device_DeviceDesc).2 = true
  · simp [bind_apply, pure_apply, M.andThen, M.call, M.raise, M.update, ThrowIfFailed,
      GetDevicePropertyString_some, h1, h2, h3, h4]
  by_cases h5 : FAILED dev.Activate.1 = true
  · simp [bind_apply, pure_apply, M.andThen, M.call, M.raise, M.update, ThrowIfFailed,
      GetDevicePropertyString_some, h1, h2, h3, h4, h5]
  · simp [bind_apply, pure_apply, M.andThen, M.call, M.raise, M.update, ThrowIfFailed,
      GetDevicePropertyString_some, h1, h2, h3, h4, h5]

theorem loop_spec_of_eq (env : Env) (name : String) (coll : IMMDeviceCollection) (n i : Nat)
    (locals : Option IMMDevice × Option IPropertyStore) (d : AudioDevice)
    (o : Outcome AudioDevice (Option IMMDevice × Option IPropertyStore))
    (ho : CreateAudioClient.loop env name coll n i locals d = o) :
    (∀ why, o.result ≠ Result.fatal why) ∧
    (∃ fnm, o.state = { d with friendlyName := fnm }) ∧
    (∀ e ∈ o.trace, e.beforeActivation = true) ∧
    ((∀ j, i ≤ j → j < i + n → friendlyNameAt coll j ≠ name) → locals.1 = none →
      ∀ v, o.result = Result.value v → v.1 = none) ∧
    ((locals.1.isSome = true → locals.2.isSome = true) →
      ∀ v, o.result = Result.value v → v.1.isSome = true → v.2.isSome = true) := by
  subst ho
  exact loop_spec env name coll n i locals d

theorem CreateAudioClient_default (env : Env) (settings : ISettings) (d : AudioDevice)
    (hn : noDeviceName settings.GetOuputDevice.2.1 = true)
    (o : Outcome AudioDevice Unit) (ho : CreateAudioClient env (some settings) d = o) :
    (∀ why, o.result ≠ Result.fatal why) ∧
    (o.state.audioRenderClient = d.audioRenderClient ∧ o.state.audioClock = d.audioClock ∧
      o.state.format = d.format ∧ o.state.dspFormat = d.dspFormat ∧
      o.state.bufferDuration = d.bufferDuration) ∧
    (∀ e ∈ o.trace, e.beforeActivation = true ∨ e = Event.Activate) ∧
    (o.result = Result.value () →
      FAILED settings.GetOuputDevice.1 = false ∧
      o.state.exclusive = decide (settings.GetOuputDevice.2.2 ≠ 0) ∧
      o.state.default = noDeviceName settings.GetOuputDevice.2.1) ∧
    (∀ e, o.result = Result.thrown e →
      o.state.audioClient = none ∨ o.state.audioClient = d.audioClient) := by
  by_cases h1 : FAILED settings.GetOuputDevice.1 = true
  · simp [CreateAudioClient, assert_ok, deref, bind_apply, pure_apply, M.andThen, M.call, M.raise, M.update, ThrowIfFailed, GetDevicePropertyString_some, activate_some, hn, h1] at ho
    subst ho
    simp [Event.beforeActivation, *]
  by_cases h2 : FAILED env.CoCreateInstance.1 = true
  · simp [CreateAudioClient, assert_ok, deref, bind_apply, pure_apply, M.andThen, M.call, M.raise, M.update, ThrowIfFailed, GetDevicePropertyString_some, activate_some, hn, h1, h2] at ho
    subst ho
    simp [Event.beforeActivation, *]
  by_cases h3 : FAILED env.CoCreateInstance.2.GetDefaultAudioEndpoint.1 = true
  · simp [CreateAudioClient, assert_ok, deref, bind_apply, pure_apply, M.andThen, M.call, M.raise, M.update, ThrowIfFailed, GetDevicePropertyString_some, activate_some, hn, h1, h2, h3] at ho
    subst ho
    simp [Event.beforeActivation, *]
  by_cases h4 : FAILED env.CoCreateInstance.2.GetDefaultAudioEndpoint.2.OpenPropertyStore.1 = true
  · simp [CreateAudioClient, assert_ok, deref, bind_apply, pure_apply, M.andThen, M.call, M.raise, M.update, ThrowIfFailed, GetDevicePropertyString_some, activate_some, hn, h1, h2, h3, h4] at ho
    subst ho
    simp [Event.beforeActivation, *]
  by_cases h5 : FAILED (env.CoCreateInstance.2.GetDefaultAudioEndpoint.2.OpenPropertyStore.2.GetValue PROPERTYKEY.PKEY_Device_FriendlyName).1 = true
  · simp [CreateAudioClient, assert_ok, deref, bind_apply, pure_apply, M.andThen, M.call, M.raise, M.update, ThrowIfFailed, GetDevicePropertyString_some, activate_some, hn, h1, h2, h3, h4, h5] at ho
    subst ho
    simp [Event.beforeActivation, *]
  by_cases h6 : env.wstring_bad_alloc (env.CoCreateInstance.2.GetDefaultAudioEndpoint.2.OpenPropertyStore.2.GetValue PROPERTYKEY.PKEY_Device_FriendlyName).2 = true
  · simp [CreateAudioClient, assert_ok, deref, bind_apply, pure_apply, M.andThen, M.call, M.raise, M.update, ThrowIfFailed, GetDevicePropertyString_some, activate_some, hn, h1, h2, h3, h4, h5, h6] at ho
    subst ho
    simp [Event.beforeActivation, *]
  by_cases h7 : FAILED (env.CoCreateInstance.2.GetDefaultAudioEndpoint.2.OpenPropertyStore.2.GetValue PROPERTYKEY.PKEY_DeviceInterface_FriendlyName).1 = true
  · simp [CreateAudioClient, assert_ok, deref, bind_apply, pure_apply, M.andThen, M.call, M.raise, M.update, ThrowIfFailed, GetDevicePropertyString_some, activate_some, hn, h1, h2, h3, h4, h5, h6, h7] at ho
    subst ho
    simp [Event.beforeActivation, *]
  by_cases h8 : env.wstring_bad_alloc (env.CoCreateInstance.2.GetDefaultAudioEndpoint.2.OpenPropertyStore.2.GetValue PROPERTYKEY.PKEY_DeviceInterface_FriendlyName).2 = true
  · simp [CreateAudioClient, assert_ok, deref, bind_apply, pure_apply, M.andThen, M.call, M.raise, M.update, ThrowIfFailed, GetDevicePropertyString_some, activate_some, hn, h1, h2, h3, h4, h5, h6, h7, h8] at ho
    subst ho
    simp [Event.beforeActivation, *]
  by_cases h9 : FAILED (env.CoCreateInstance.2.GetDefaultAudioEndpoint.2.OpenPropertyStore.2.GetValue PROPERTYKEY.PKEY_Device_DeviceDesc).1 = true
  · simp [CreateAudioClient, assert_ok, deref, bind_apply, pure_apply, M.andThen, M.call, M.raise, M.update, ThrowIfFailed, GetDevicePropertyString_some, activate_some, hn, h1, h2, h3, h4, h5, h6, h7, h8, h9] at ho
    subst ho
    simp [Event.beforeActivation, *]
  by_cases h10 : env.wstring_bad_alloc (env.CoCreateInstance.2.GetDefaultAudioEndpoint.2.OpenPropertyStore.2.GetValue PROPERTYKEY.PKEY_Device_DeviceDesc).2 = true
  · simp [CreateAudioClient, assert_ok, deref, bind_apply, pure_apply, M.andThen, M.call, M.raise, M.update, ThrowIfFailed, GetDevicePropertyString_some, activate_some, hn, h1, h2, h3, h4, h5, h6, h7, h8, h9, h10] at ho
    subst ho
    simp [Event.beforeActivation, *]
  by_cases h11 : FAILED env.CoCreateInstance.2.GetDefaultAudioEndpoint.2.Activate.1 = true
  · simp [CreateAudioClient, assert_ok, deref, bind_apply, pure_apply, M.andThen, M.call, M.raise, M.update, ThrowIfFailed, GetDevicePropertyString_some, activate_some, hn, h1, h2, h3, h4, h5, h6, h7, h8, h9, h10, h11] at ho
    subst ho
    simp [Event.beforeActivation, *]
  simp [CreateAudioClient, assert_ok, deref, bind_apply, pure_apply, M.andThen, M.call, M.raise, M.update, ThrowIfFailed, GetDevicePropertyString_some, activate_some, hn, h1, h2, h3, h4, h5, h6, h7, h8, h9, h10, h11] at ho
  subst ho
  simp [Event.beforeActivation, *]

theorem CreateAudioClient_named (env : Env) (settings : ISettings) (d : AudioDevice)
    (hn : noDeviceName settings.GetOuputDevice.2.1 = false)
    (o : Outcome AudioDevice Unit) (ho : CreateAudioClient env (some settings) d = o) :
    (∀ why, o.result ≠ Result.fatal why) ∧
    (o.state.audioRenderClient = d.audioRenderClient ∧ o.state.audioClock = d.audioClock ∧
      o.state.format = d.format ∧ o.state.dspFormat = d.dspFormat ∧
      o.state.bufferDuration = d.bufferDuration) ∧
    (∀ e ∈ o.trace, e.beforeActivation = true ∨ e = Event.Activate) ∧
    (o.result = Result.value () →
      FAILED settings.GetOuputDevice.1 = false ∧
      o.state.exclusive = decide (settings.GetOuputDevice.2.2 ≠ 0) ∧
      o.state.default = noDeviceName settings.GetOuputDevice.2.1) ∧
    (∀ e, o.result = Result.thrown e →
      o.state.audioClient = none ∨ o.state.audioClient = d.audioClient) ∧
    ((∀ j, j < env.CoCreateInstance.2.EnumAudioEndpoints.2.GetCount.2 →
        friendlyNameAt env.CoCreateInstance.2.EnumAudioEndpoints.2 j ≠
          settings.GetOuputDevice.2.1.getD "") →
      o.state.audioClient = d.audioClient ∧ ∀ e ∈ o.trace, e.beforeActivation = true) := by
  by_cases h1 : FAILED settings.GetOuputDevice.1 = true
  · simp [CreateAudioClient, assert_ok, deref, bind_apply, pure_apply, M.andThen, M.call, M.raise, M.update, ThrowIfFailed, GetDevicePropertyString_some, activate_some, hn, h1] at ho
    subst ho
    simp [Event.beforeActivation, *]
  by_cases h2 : FAILED env.CoCreateInstance.1 = true
  · simp [CreateAudioClient, assert_ok, deref, bind_apply, pure_apply, M.andThen, M.call, M.raise, M.update, ThrowIfFailed, GetDevicePropertyString_some, activate_some, hn, h1, h2] at ho
    subst ho
    simp [Event.beforeActivation, *]
  by_cases h3 : FAILED env.CoCreateInstance.2.EnumAudioEndpoints.1 = true
  · simp [CreateAudioClient, assert_ok, deref, bind_apply, pure_apply, M.andThen, M.call, M.raise, M.update, ThrowIfFailed, GetDevicePropertyString_some, activate_some, hn, h1, h2, h3] at ho
    subst ho
    simp [Event.beforeActivation, *]
  by_cases h4 : FAILED env.CoCreateInstance.2.EnumAudioEndpoints.2.GetCount.1 = true
  · simp [CreateAudioClient, assert_ok, deref, bind_apply, pure_apply, M.andThen, M.call, M.raise, M.update, ThrowIfFailed, GetDevicePropertyString_some, activate_some, hn, h1, h2, h3, h4] at ho
    subst ho
    simp [Event.beforeActivation, *]
  simp [CreateAudioClient, assert_ok, deref, bind_apply, pure_apply, M.andThen, M.call, M.raise, M.update, ThrowIfFailed, GetDevicePropertyString_some, hn, h1, h2, h3, h4] at ho
  generalize hL : CreateAudioClient.loop env _ _ _ _ _ _ = L at ho
  obtain ⟨l1, ⟨fnm, l2⟩, l3, l4, l5⟩ := loop_spec_of_eq env _ _ _ _ _ _ L hL
  clear hL
  obtain ⟨res, st, tr⟩ := L
  simp only at l1 l2 l3 l4 l5
  subst l2
  cases res with
  | fatal why => exact absurd rfl (l1 why)
  | thrown e =>
    simp at ho
    subst ho
    simp [Event.beforeActivation, *]
    refine ⟨?_, ?_⟩
    · intro e he
      exact Or.inl (l3 e he)
    · intro _
      exact l3
  | value v =>
    obtain ⟨dv, sv⟩ := v
    cases dv with
    | none =>
      simp [activate_none] at ho
      subst ho
      simp [Event.beforeActivation, *]
      refine ⟨?_, ?_⟩
      · intro e he
        exact Or.inl (l3 e he)
      · intro _
        exact l3
    | some dev =>
      cases sv with
      | none => exact absurd (l5 (by simp) _ rfl (by simp)) (by simp)
      | some store =>
        by_cases h7 : FAILED (store.GetValue PROPERTYKEY.PKEY_DeviceInterface_FriendlyName).1 = true
        · simp [assert_ok, deref, bind_apply, pure_apply, M.andThen, M.call, M.raise, M.update, ThrowIfFailed, GetDevicePropertyString_some, activate_some, h7] at ho
          subst ho
          refine ⟨by simp, by simp, ?_, by simp [*], by simp, ?_⟩
          · intro e he
            simp at he
            rcases he with he | he | he | he | he | he | he | he | he | he
            all_goals first | exact Or.inl (l3 e he) | (subst he; simp [Event.beforeActivation]) | simp [Event.beforeActivation]
          · intro hall
            exact absurd (l4 (fun j _ hj => hall j (by omega)) trivial _ rfl) (by simp)
        by_cases h8 : env.wstring_bad_alloc (store.GetValue PROPERTYKEY.PKEY_DeviceInterface_FriendlyName).2 = true
        · simp [assert_ok, deref, bind_apply, pure_apply, M.andThen, M.call, M.raise, M.update, ThrowIfFailed, GetDevicePropertyString_some, activate_some, h7, h8] at ho
          subst ho
          refine ⟨by simp, by simp, ?_, by simp [*], by simp, ?_⟩
          · intro e he
            simp at he
            rcases he with he | he | he | he | he | he | he | he | he | he
            all_goals first | exact Or.inl (l3 e he) | (subst he; simp [Event.beforeActivation]) | simp [Event.beforeActivation]
          · intro hall
            exact absurd (l4 (fun j _ hj => hall j (by omega)) trivial _ rfl) (by simp)
        by_cases h9 : FAILED (store.GetValue PROPERTYKEY.PKEY_Device_DeviceDesc).1 = true
        · simp [assert_ok, deref, bind_apply, pure_apply, M.andThen, M.call, M.raise, M.update, ThrowIfFailed, GetDevicePropertyString_some, activate_some, h7, h8, h9] at ho
          subst ho
          refine ⟨by simp, by simp, ?_, by simp [*], by simp, ?_⟩
          · intro e he
            simp at he
            rcases he with he | he | he | he | he | he | he | he | he | he
            all_goals first | exact Or.inl (l3 e he) | (subst he; simp [Event.beforeActivation]) | simp [Event.beforeActivation]
          · intro hall
            exact absurd (l4 (fun j _ hj => hall j (by omega)) trivial _ rfl) (by simp)
        by_cases h10 : env.wstring_bad_alloc (store.GetValue PROPERTYKEY.PKEY_Device_DeviceDesc).2 = true
        · simp [assert_ok, deref, bind_apply, pure_apply, M.andThen, M.call, M.raise, M.update, ThrowIfFailed, GetDevicePropertyString_some, activate_some, h7, h8, h9, h10] at ho
          subst ho
          refine ⟨by simp, by simp, ?_, by simp [*], by simp, ?_⟩
          · intro e he
            simp at he
            rcases he with he | he | he | he | he | he | he | he | he | he
            all_goals first | exact Or.inl (l3 e he) | (subst he; simp [Event.beforeActivation]) | simp [Event.beforeActivation]
          · intro hall
            exact absurd (l4 (fun j _ hj => hall j (by omega)) trivial _ rfl) (by simp)
        by_cases h11 : FAILED dev.Activate.1 = true
        · simp [assert_ok, deref, bind_apply, pure_apply, M.andThen, M.call, M.raise, M.update, ThrowIfFailed, GetDevicePropertyString_some, activate_some, h7, h8, h9, h10, h11] at ho
          subst ho
          refine ⟨by simp, by simp, ?_, by simp [*], by simp, ?_⟩
          · intro e he
            simp at he
            rcases he with he | he | he | he | he | he | he | he | he | he
            all_goals first | exact Or.inl (l3 e he) | (subst he; simp [Event.beforeActivation]) | simp [Event.beforeActivation]
          · intro hall
            exact absurd (l4 (fun j _ hj => hall j (by omega)) trivial _ rfl) (by simp)
        simp [assert_ok, deref, bind_apply, pure_apply, M.andThen, M.call, M.raise, M.update, ThrowIfFailed, GetDevicePropertyString_some, activate_some, h7, h8, h9, h10, h11] at ho
        subst ho
        refine ⟨by simp, by simp, ?_, by simp [*], by simp, ?_⟩
        · intro e he
          simp at he
          rcases he with he | he | he | he | he | he | he | he | he | he
          all_goals first | exact Or.inl (l3 e he) | (subst he; simp [Event.beforeActivation]) | simp [Event.beforeActivation]
        · intro hall
          exact absurd (l4 (fun j _ hj => hall j (by omega)) trivial _ rfl) (by simp)

set_option maxHeartbeats 2000000 in
theorem tryBlock_eq (env : Env) (s : DeviceManager) :
    OnCreateDevice.tryBlock env s = attempted env s := by
  unfold attempted
  generalize hO : CreateAudioClient env s.m_createDeviceSettings s.m_device = o
  obtain ⟨res, dev, tr⟩ := o
  cases res with
  | thrown e =>
    simp [OnCreateDevice.tryBlock, bind_apply, pure_apply, M.andThen, M.read, onDevice, hO]
  | fatal why =>
    simp [OnCreateDevice.tryBlock, bind_apply, pure_apply, M.andThen, M.read, onDevice, hO]
  | value u =>
    cases hc : dev.audioClient with
    | none =>
      simp [OnCreateDevice.tryBlock, bind_apply, pure_apply, M.andThen, M.read, onDevice, hO, hc]
    | some c =>
      by_cases h1 : FAILED c.GetMixFormat.1 = true
      · simp [OnCreateDevice.tryBlock, bind_apply, pure_apply, M.andThen, M.read, M.call, M.raise, M.update, M.abort, onDevice, ThrowIfFailed, deref, negotiated, finished, shareMode, initialization, Outcome.after, scan_eval, hO, hc, h1]
      cases hf : s.m_createDeviceFormat with
      | none => simp [OnCreateDevice.tryBlock, bind_apply, pure_apply, M.andThen, M.read, M.call, M.raise, M.update, M.abort, onDevice, ThrowIfFailed, deref, negotiated, finished, shareMode, initialization, Outcome.after, scan_eval, hO, hc, h1, hf]
      | some format =>
        by_cases hU : env.DspFormatFromWaveFormat format = DspFormat.Unknown
        · cases hx : dev.exclusive with
          | false => simp [OnCreateDevice.tryBlock, bind_apply, pure_apply, M.andThen, M.read, M.call, M.raise, M.update, M.abort, onDevice, ThrowIfFailed, deref, negotiated, finished, shareMode, initialization, Outcome.after, scan_eval, hO, hc, h1, hf, hU, hx]
          | true =>
            by_cases k1 : FAILED (c.Initialize AUDCLNT_SHAREMODE.AUDCLNT_SHAREMODE_EXCLUSIVE 0 (MILLISECONDS_TO_100NS_UNITS 200) 0 (some format)) = true
            · simp [OnCreateDevice.tryBlock, bind_apply, pure_apply, M.andThen, M.read, M.call, M.raise, M.update, M.abort, onDevice, ThrowIfFailed, deref, negotiated, finished, shareMode, initialization, Outcome.after, scan_eval, hO, hc, h1, hf, hU, hx, k1]
            by_cases k2 : FAILED c.GetService_RenderClient.1 = true
            · simp [OnCreateDevice.tryBlock, bind_apply, pure_apply, M.andThen, M.read, M.call, M.raise, M.update, M.abort, onDevice, ThrowIfFailed, deref, negotiated, finished, shareMode, initialization, Outcome.after, scan_eval, hO, hc, h1, hf, hU, hx, k1, k2]
            by_cases k3 : FAILED c.GetService_Clock.1 = true
            · simp [OnCreateDevice.tryBlock, bind_apply, pure_apply, M.andThen, M.read, M.call, M.raise, M.update, M.abort, onDevice, ThrowIfFailed, deref, negotiated, finished, shareMode, initialization, Outcome.after, scan_eval, hO, hc, h1, hf, hU, hx, k1, k2, k3]
            simp [OnCreateDevice.tryBlock, bind_apply, pure_apply, M.andThen, M.read, M.call, M.raise, M.update, M.abort, onDevice, ThrowIfFailed, deref, negotiated, finished, shareMode, initialization, Outcome.after, scan_eval, hO, hc, h1, hf, hU, hx, k1, k2, k3]
        · cases hx : dev.exclusive with
          | false =>
            by_cases k1 : FAILED (c.Initialize AUDCLNT_SHAREMODE.AUDCLNT_SHAREMODE_SHARED 0 (MILLISECONDS_TO_100NS_UNITS 200) 0 (some c.GetMixFormat.2)) = true
            · simp [OnCreateDevice.tryBlock, bind_apply, pure_apply, M.andThen, M.read, M.call, M.raise, M.update, M.abort, onDevice, ThrowIfFailed, deref, negotiated, finished, shareMode, initialization, Outcome.after, scan_eval, hO, hc, h1, hf, hU, hx, k1]
            by_cases k2 : FAILED c.GetService_RenderClient.1 = true
            · simp [OnCreateDevice.tryBlock, bind_apply, pure_apply, M.andThen, M.read, M.call, M.raise, M.update, M.abort, onDevice, ThrowIfFailed, deref, negotiated, finished, shareMode, initialization, Outcome.after, scan_eval, hO, hc, h1, hf, hU, hx, k1, k2]
            by_cases k3 : FAILED c.GetService_Clock.1 = true
            · simp [OnCreateDevice.tryBlock, bind_apply, pure_apply, M.andThen, M.read, M.call, M.raise, M.update, M.abort, onDevice, ThrowIfFailed, deref, negotiated, finished, shareMode, initialization, Outcome.after, scan_eval, hO, hc, h1, hf, hU, hx, k1, k2, k3]
            simp [OnCreateDevice.tryBlock, bind_apply, pure_apply, M.andThen, M.read, M.call, M.raise, M.update, M.abort, onDevice, ThrowIfFailed, deref, negotiated, finished, shareMode, initialization, Outcome.after, scan_eval, hO, hc, h1, hf, hU, hx, k1, k2, k3]
          | true =>
            cases hfind : (OnCreateDevice.priorities env format c.GetMixFormat.2).find? (accepts c) with
            | none =>
              by_cases k1 : FAILED (c.Initialize AUDCLNT_SHAREMODE.AUDCLNT_SHAREMODE_EXCLUSIVE 0 (MILLISECONDS_TO_100NS_UNITS 200) 0 (dev.format)) = true
              · simp [OnCreateDevice.tryBlock, bind_apply, pure_apply, M.andThen, M.read, M.call, M.raise, M.update, M.abort, onDevice, ThrowIfFailed, deref, negotiated, finished, shareMode, initialization, Outcome.after, scan_eval, hO, hc, h1, hf, hU, hx, hfind, k1]
              by_cases k2 : FAILED c.GetService_RenderClient.1 = true
              · simp [OnCreateDevice.tryBlock, bind_apply, pure_apply, M.andThen, M.read, M.call, M.raise, M.update, M.abort, onDevice, ThrowIfFailed, deref, negotiated, finished, shareMode, initialization, Outcome.after, scan_eval, hO, hc, h1, hf, hU, hx, hfind, k1, k2]
              by_cases k3 : FAILED c.GetService_Clock.1 = true
              · simp [OnCreateDevice.tryBlock, bind_apply, pure_apply, M.andThen, M.read, M.call, M.raise, M.update, M.abort, onDevice, ThrowIfFailed, deref, negotiated, finished, shareMode, initialization, Outcome.after, scan_eval, hO, hc, h1, hf, hU, hx, hfind, k1, k2, k3]
              simp [OnCreateDevice.tryBlock, bind_apply, pure_apply, M.andThen, M.read, M.call, M.raise, M.update, M.abort, onDevice, ThrowIfFailed, deref, negotiated, finished, shareMode, initialization, Outcome.after, scan_eval, hO, hc, h1, hf, hU, hx, hfind, k1, k2, k3]
            | some f =>
              by_cases hb : env.format_bad_alloc (WaveFormat.extensible f.2) = true
              · simp [OnCreateDevice.tryBlock, bind_apply, pure_apply, M.andThen, M.read, M.call, M.raise, M.update, M.abort, onDevice, ThrowIfFailed, deref, negotiated, finished, shareMode, initialization, Outcome.after, scan_eval, hO, hc, h1, hf, hU, hx, hfind, hb]
              by_cases k1 : FAILED (c.Initialize AUDCLNT_SHAREMODE.AUDCLNT_SHAREMODE_EXCLUSIVE 0 (MILLISECONDS_TO_100NS_UNITS 200) 0 (some (WaveFormat.extensible f.2))) = true
              · simp [OnCreateDevice.tryBlock, bind_apply, pure_apply, M.andThen, M.read, M.call, M.raise, M.update, M.abort, onDevice, ThrowIfFailed, deref, negotiated, finished, shareMode, initialization, Outcome.after, scan_eval, hO, hc, h1, hf, hU, hx, hfind, hb, k1]
              by_cases k2 : FAILED c.GetService_RenderClient.1 = true
              · simp [OnCreateDevice.tryBlock, bind_apply, pure_apply, M.andThen, M.read, M.call, M.raise, M.update, M.abort, onDevice, ThrowIfFailed, deref, negotiated, finished, shareMode, initialization, Outcome.after, scan_eval, hO, hc, h1, hf, hU, hx, hfind, hb, k1, k2]
              by_cases k3 : FAILED c.GetService_Clock.1 = true
              · simp [OnCreateDevice.tryBlock, bind_apply, pure_apply, M.andThen, M.read, M.call, M.raise, M.update, M.abort, onDevice, ThrowIfFailed, deref, negotiated, finished, shareMode, initialization, Outcome.after, scan_eval, hO, hc, h1, hf, hU, hx, hfind, hb, k1, k2, k3]
              simp [OnCreateDevice.tryBlock, bind_apply, pure_apply, M.andThen, M.read, M.call, M.raise, M.update, M.abort, onDevice, ThrowIfFailed, deref, negotiated, finished, shareMode, initialization, Outcome.after, scan_eval, hO, hc, h1, hf, hU, hx, hfind, hb, k1, k2, k3]

theorem finished_frame (c : IAudioClient) (s : DeviceManager) :
    sameRequest s (finished c s).state := by
  unfold finished
  split_ifs <;> simp [sameRequest]

theorem negotiated_frame (env : Env) (c : IAudioClient) (s : DeviceManager) :
    sameRequest s (negotiated env c s).state := by
  have F := fun s => finished_frame c s
  simp only [sameRequest] at F
  unfold negotiated
  repeat' split
  all_goals simp [sameRequest, Outcome.after, F]

theorem attempted_frame (env : Env) (s : DeviceManager) :
    sameRequest s (attempted env s).state := by
  have F := fun c s => negotiated_frame env c s
  simp only [sameRequest] at F
  unfold attempted
  repeat' split
  all_goals simp [sameRequest, Outcome.after, F]

theorem CreateDevice_of_value (env : Env) (st : DeviceManager) (format : WaveFormat)
    (settings : ISettings) (r : LRESULT)
    (hown : env.NDEBUG = true ∨ soleOwner st.m_device = true)
    (hr : (attempted env (entered st format settings)).result = Result.value r) :
    CreateDevice env (some format) (some settings) st =
      ⟨Result.value (decide (r = 0), (attempted env (entered st format settings)).state.m_device),
        { (attempted env (entered st format settings)).state with
          m_createDeviceFormat := none, m_createDeviceSettings := none },
        Event.ReleaseDevice :: (attempted env (entered st format settings)).trace⟩ := by
  have hrel := ReleaseDevice_eq env
    { st with m_createDeviceFormat := some format, m_createDeviceSettings := some settings,
              m_queuedCreateDevice := false } hown
  obtain ⟨f1, f2, f3, f4, f5, f6, f7⟩ := attempted_frame env (entered st format settings)
  unfold entered at hr f1 f2 f3 f4 f5 f6 f7
  simp only at f1 f2 f3 f4 f5 f6 f7
  unfold entered
  simp [CreateDevice, SendMessage, WindowProc, WM_CREATE_DEVICE, WM_DESTROY, WM_USER,
    WM_CHECK_BITSTREAM_FORMAT, OnCreateDevice, assert_ok, bind_apply, pure_apply,
    M.andThen, M.read, M.update, M.call, M.tryCatch, hrel, tryBlock_eq, hr, f1, f2, f3, f4, f5, f6, f7]

theorem CreateDevice_of_thrown (env : Env) (st : DeviceManager) (format : WaveFormat)
    (settings : ISettings) (e : Exception)
    (hown : env.NDEBUG = true ∨ soleOwner st.m_device = true)
    (hr : (attempted env (entered st format settings)).result = Result.thrown e)
    (hcatch : env.NDEBUG = true ∨
      soleOwner (attempted env (entered st format settings)).state.m_device = true) :
    CreateDevice env (some format) (some settings) st =
      ⟨Result.value (false, {}),
        { (attempted env (entered st format settings)).state with
          m_device := {}, m_createDeviceFormat := none, m_createDeviceSettings := none },
        Event.ReleaseDevice ::
          ((attempted env (entered st format settings)).trace ++ [Event.ReleaseDevice])⟩ := by
  have hrel := ReleaseDevice_eq env
    { st with m_createDeviceFormat := some format, m_createDeviceSettings := some settings,
              m_queuedCreateDevice := false } hown
  have hrel2 := ReleaseDevice_eq env (attempted env (entered st format settings)).state hcatch
  obtain ⟨f1, f2, f3, f4, f5, f6, f7⟩ := attempted_frame env (entered st format settings)
  unfold entered at hr f1 f2 f3 f4 f5 f6 f7 hrel2
  simp only at f1 f2 f3 f4 f5 f6 f7
  unfold entered
  simp [CreateDevice, SendMessage, WindowProc, WM_CREATE_DEVICE, WM_DESTROY, WM_USER,
    WM_CHECK_BITSTREAM_FORMAT, OnCreateDevice, assert_ok, bind_apply, pure_apply,
    M.andThen, M.read, M.update, M.call, M.tryCatch, hrel, tryBlock_eq, hr, f1, f2, f3, f4, f5, f6, f7, hrel2]

theorem priorities_eq_candidates (env : Env) (format mixFormat : WaveFormat) :
    OnCreateDevice.priorities env format mixFormat =
      candidates format.Format.nSamplesPerSec mixFormat.Format.nSamplesPerSec
        mixFormat.Format.nChannels (env.GetChannelMask mixFormat) := rfl

theorem FAILED_eq_false (hr : HRESULT) : FAILED hr = false ↔ SUCCEEDED hr = true := by
  simp [FAILED, SUCCEEDED]

theorem FAILED_eq_true (hr : HRESULT) : FAILED hr = true ↔ SUCCEEDED hr = false := by
  simp [FAILED, SUCCEEDED]

theorem CreateAudioClient_spec (env : Env) (settings : ISettings) (d : AudioDevice)
    (o : Outcome AudioDevice Unit) (ho : CreateAudioClient env (some settings) d = o) :
    (∀ why, o.result ≠ Result.fatal why) ∧
    (o.state.audioRenderClient = d.audioRenderClient ∧ o.state.audioClock = d.audioClock ∧
      o.state.format = d.format ∧ o.state.dspFormat = d.dspFormat ∧
      o.state.bufferDuration = d.bufferDuration) ∧
    (∀ e ∈ o.trace, e.beforeActivation = true ∨ e = Event.Activate) ∧
    (o.result = Result.value () →
      FAILED settings.GetOuputDevice.1 = false ∧
      o.state.exclusive = decide (settings.GetOuputDevice.2.2 ≠ 0) ∧
      o.state.default = noDeviceName settings.GetOuputDevice.2.1) ∧
    (∀ e, o.result = Result.thrown e →
      o.state.audioClient = none ∨ o.state.audioClient = d.audioClient) ∧
    (noDeviceName settings.GetOuputDevice.2.1 = false →
      (∀ j, j < env.CoCreateInstance.2.EnumAudioEndpoints.2.GetCount.2 →
        friendlyNameAt env.CoCreateInstance.2.EnumAudioEndpoints.2 j ≠
          settings.GetOuputDevice.2.1.getD "") →
      o.state.audioClient = d.audioClient ∧ ∀ e ∈ o.trace, e.beforeActivation = true) := by
  cases hn : noDeviceName settings.GetOuputDevice.2.1 with
  | true =>
    obtain ⟨a1, a2, a3, a4, a5⟩ := CreateAudioClient_default env settings d hn o ho
    rw [hn] at a4
    exact ⟨a1, a2, a3, a4, a5, by simp⟩
  | false =>
    obtain ⟨a1, a2, a3, a4, a5, a6⟩ := CreateAudioClient_named env settings d hn o ho
    rw [hn] at a4
    exact ⟨a1, a2, a3, a4, a5, fun _ => a6⟩

/-- C6. In shared mode, for a desired format that is a representable PCM or float
format, when the endpoint resolves with an activated client and the mix-format query,
the initialisation of the client and the two service acquisitions succeed,
`CreateDevice` returns success and the device it holds and copies out has
`dspFormat = Float`, is not exclusive, has the mix format of the endpoint as its
format whatever the desired format was, a buffer duration of 200 ms, and is marked as
the default endpoint when the requested endpoint name is empty. -/
theorem CreateDevice_shared (env : Env) (st : DeviceManager) (format : WaveFormat)
    (settings : ISettings) (dev : AudioDevice) (tr : List Event) (c : IAudioClient)
    (hown : env.NDEBUG = true ∨ soleOwner st.m_device = true)
    (hformat : env.DspFormatFromWaveFormat format ≠ DspFormat.Unknown)
    (hshared : settings.GetOuputDevice.2.2 = 0)
    (hresolve : CreateAudioClient env (some settings) {} = ⟨Result.value (), dev, tr⟩)
    (hclient : dev.audioClient = some c)
    (hmix : SUCCEEDED c.GetMixFormat.1 = true)
    (hinit : SUCCEEDED (c.Initialize AUDCLNT_SHAREMODE.AUDCLNT_SHAREMODE_SHARED 0
      (MILLISECONDS_TO_100NS_UNITS 200) 0 (some c.GetMixFormat.2)) = true)
    (hrender : SUCCEEDED c.GetService_RenderClient.1 = true)
    (hclock : SUCCEEDED c.GetService_Clock.1 = true) :
    ∃ out,
      (CreateDevice env (some format) (some settings) st).result = Result.value (true, out) ∧
      (CreateDevice env (some format) (some settings) st).state.m_device = out ∧
      out.audioClient = some c ∧
      out.audioRenderClient = some c.GetService_RenderClient.2 ∧
      out.audioClock = some c.GetService_Clock.2 ∧
      out.dspFormat = DspFormat.Float ∧
      out.exclusive = false ∧
      out.format = some c.GetMixFormat.2 ∧
      out.bufferDuration = 200 ∧
      (noDeviceName settings.GetOuputDevice.2.1 = true → out.default = true) := by
  obtain ⟨-, -, -, a4, -, -⟩ := CreateAudioClient_spec env settings {} _ hresolve
  obtain ⟨-, hex, hdef⟩ := a4 rfl
  simp only [hshared, ne_eq, not_true_eq_false, decide_False] at hex
  simp only at hdef
  rw [← FAILED_eq_false] at hmix hinit hrender hclock
  have hatt : attempted env (entered st format settings) =
      ⟨Result.value 0,
        { entered st format settings with m_device := { dev with
          bufferDuration := 200, dspFormat := DspFormat.Float, format := some c.GetMixFormat.2,
          audioRenderClient := some c.GetService_RenderClient.2,
          audioClock := some c.GetService_Clock.2 } },
        tr ++ [Event.GetMixFormat,
          Event.Initialize AUDCLNT_SHAREMODE.AUDCLNT_SHAREMODE_SHARED 0
            (MILLISECONDS_TO_100NS_UNITS 200) 0 (some c.GetMixFormat.2),
          Event.GetService IID.IAudioRenderClient, Event.GetService IID.IAudioClock]⟩ := by
    simp [attempted, entered, negotiated, finished, shareMode, initialization, Outcome.after,
      hresolve, hclient, hmix, hformat, hex, hinit, hrender, hclock]
  rw [CreateDevice_of_value env st format settings 0 hown (by rw [hatt])]
  simp [hatt, hclient, hex]
  intro h
  rw [hdef, h]

/-- C4, as amended. In exclusive mode, for a desired format that is a representable PCM
or float format, when the endpoint resolves and its client rejects all ten candidates,
no format is chosen and the client is initialised with no format; when that
initialisation fails, `CreateDevice` returns failure and the engine holds no device. -/
theorem CreateDevice_exclusive_all_rejected (env : Env) (st : DeviceManager)
    (format : WaveFormat) (settings : ISettings) (dev : AudioDevice) (tr : List Event)
    (c : IAudioClient)
    (hown : env.NDEBUG = true ∨
      (soleOwner st.m_device = true ∧ IsLastInstance c.AddRef = true))
    (hformat : env.DspFormatFromWaveFormat format ≠ DspFormat.Unknown)
    (hexclusive : settings.GetOuputDevice.2.2 ≠ 0)
    (hresolve : CreateAudioClient env (some settings) {} = ⟨Result.value (), dev, tr⟩)
    (hclient : dev.audioClient = some c)
    (hmix : SUCCEEDED c.GetMixFormat.1 = true)
    (hrejected : ∀ g ∈ candidates format.Format.nSamplesPerSec
      c.GetMixFormat.2.Format.nSamplesPerSec c.GetMixFormat.2.Format.nChannels
      (env.GetChannelMask c.GetMixFormat.2), accepts c g = false)
    (hinit : SUCCEEDED (c.Initialize AUDCLNT_SHAREMODE.AUDCLNT_SHAREMODE_EXCLUSIVE 0
      (MILLISECONDS_TO_100NS_UNITS 200) 0 none) = false) :
    (CreateDevice env (some format) (some settings) st).result = Result.value (false, {}) ∧
    (CreateDevice env (some format) (some settings) st).state.m_device = {} ∧
    Event.Initialize AUDCLNT_SHAREMODE.AUDCLNT_SHAREMODE_EXCLUSIVE 0
      (MILLISECONDS_TO_100NS_UNITS 200) 0 none ∈
        (CreateDevice env (some format) (some settings) st).trace := by
  obtain ⟨-, ⟨b1, b2, b3, -, -⟩, a3, a4, -, -⟩ := CreateAudioClient_spec env settings {} _ hresolve
  obtain ⟨-, hex, -⟩ := a4 rfl
  simp only [hexclusive, ne_eq, not_false_eq_true, decide_True] at hex
  simp only at b1 b2 b3 a3
  rw [← FAILED_eq_false] at hmix
  rw [← FAILED_eq_true] at hinit
  have hfind : (OnCreateDevice.priorities env format c.GetMixFormat.2).find? (accepts c) = none := by
    rw [priorities_eq_candidates]
    simpa using hrejected
  have hatt : attempted env (entered st format settings) =
      ⟨Result.thrown (Exception.hresult (c.Initialize
          AUDCLNT_SHAREMODE.AUDCLNT_SHAREMODE_EXCLUSIVE 0 (MILLISECONDS_TO_100NS_UNITS 200) 0 none)),
        { entered st format settings with m_device := { dev with bufferDuration := 200 } },
        tr ++ (Event.GetMixFormat ::
          (OnCreateDevice.priorities env format c.GetMixFormat.2).map probe) ++
          [Event.Initialize AUDCLNT_SHAREMODE.AUDCLNT_SHAREMODE_EXCLUSIVE 0
            (MILLISECONDS_TO_100NS_UNITS 200) 0 none]⟩ := by
    simp [attempted, entered, negotiated, finished, shareMode, initialization, Outcome.after,
      hresolve, hclient, hmix, hformat, hex, hinit, hfind, b3]
  have hown1 : env.NDEBUG = true ∨ soleOwner st.m_device = true := by
    rcases hown with h | h
    · exact Or.inl h
    · exact Or.inr h.1
  have hcatch : env.NDEBUG = true ∨
      soleOwner (attempted env (entered st format settings)).state.m_device = true := by
    rcases hown with h | h
    · exact Or.inl h
    · right
      rw [hatt]
      simp [soleOwner, b1, b2, hclient, h.2]
  rw [CreateDevice_of_thrown env st format settings _ hown1 (by rw [hatt]) hcatch]
  simp [hatt]

/-- C7. For a non-empty requested endpoint name that is the friendly name of no
endpoint of the enumeration (an empty enumeration included), `CreateDevice` returns
failure, the engine holds no device afterwards (no client, render sink, clock or
format) and no client is activated. -/
theorem CreateDevice_endpoint_not_found (env : Env) (st : DeviceManager) (format : WaveFormat)
    (settings : ISettings)
    (hown : env.NDEBUG = true ∨ soleOwner st.m_device = true)
    (hname : noDeviceName settings.GetOuputDevice.2.1 = false)
    (hnone : ∀ j, j < env.CoCreateInstance.2.EnumAudioEndpoints.2.GetCount.2 →
      friendlyNameAt env.CoCreateInstance.2.EnumAudioEndpoints.2 j ≠
        settings.GetOuputDevice.2.1.getD "") :
    ∃ out,
      (CreateDevice env (some format) (some settings) st).result = Result.value (false, out) ∧
      (CreateDevice env (some format) (some settings) st).state.m_device = out ∧
      out.audioClient = none ∧ out.audioRenderClient = none ∧ out.audioClock = none ∧
      out.format = none ∧
      Event.Activate ∉ (CreateDevice env (some format) (some settings) st).trace := by
  generalize hO : CreateAudioClient env (some settings) {} = o
  obtain ⟨a1, ⟨b1, b2, b3, -, -⟩, -, -, -, a6⟩ := CreateAudioClient_spec env settings {} o hO
  obtain ⟨c1, c2⟩ := a6 hname hnone
  obtain ⟨res, dev, tr⟩ := o
  simp only at a1 b1 b2 b3 c1 c2
  have hact : Event.Activate ∉ tr := fun h => by
    have := c2 _ h
    simp [Event.beforeActivation] at this
  cases res with
  | fatal why => exact absurd rfl (a1 why)
  | thrown e =>
    have hatt : attempted env (entered st format settings) =
        ⟨Result.thrown e, { entered st format settings with m_device := dev }, tr⟩ := by
      simp [attempted, entered, hO]
    rw [CreateDevice_of_thrown env st format settings e hown (by rw [hatt])
      (Or.inr (by rw [hatt]; simp [soleOwner, b1, b2, c1]))]
    exact ⟨{}, by simp [hatt, hact]⟩
  | value u =>
    have hatt : attempted env (entered st format settings) =
        ⟨Result.value 1, { entered st format settings with m_device := dev }, tr⟩ := by
      simp [attempted, entered, hO, c1]
    rw [CreateDevice_of_value env st format settings 1 hown (by rw [hatt])]
    exact ⟨dev, by simp [hatt, hact, b1, b2, b3, c1]⟩

theorem ReleaseDevice_fatal (env : Env) (s : DeviceManager)
    (hn : env.NDEBUG = false) (h : soleOwner s.m_device = false) :
    (ReleaseDevice env s).result = Result.fatal Fatal.assertion := by
  obtain ⟨h1, h2, d, h3⟩ := areLastInstances_eval s
  simp [ReleaseDevice, assert, bind_apply, pure_apply, M.andThen, M.call, M.update, M.abort, hn,
    h1, h2, h3, h]

theorem soleOwner_empty : soleOwner {} = true := rfl

/-- C9. For a queued creation request on a held device with no external reference,
`OnCreateDevice` resets the held device before any other call is made: the trace
starts with the reset, and the outcome (result, engine and calls) is the outcome of the
same request on an engine that holds no device; so is the outcome of `CreateDevice`. -/
theorem OnCreateDevice_releases_first (env : Env) (st : DeviceManager) (format : WaveFormat)
    (settings : ISettings)
    (hqueued : st.m_queuedCreateDevice = true)
    (hformat : st.m_createDeviceFormat = some format)
    (hsettings : st.m_createDeviceSettings = some settings)
    (hown : env.NDEBUG = true ∨ soleOwner st.m_device = true) :
    (∃ rest, (OnCreateDevice env st).trace = Event.ReleaseDevice :: rest) ∧
    OnCreateDevice env st = OnCreateDevice env { st with m_device := {} } ∧
    (∀ format' settings',
      CreateDevice env (some format') (some settings') st =
        CreateDevice env (some format') (some settings') { st with m_device := {} }) := by
  have hrel := ReleaseDevice_eq env { st with m_queuedCreateDevice := false } hown
  have hrel' := ReleaseDevice_eq env { st with m_queuedCreateDevice := false, m_device := {} }
    (Or.inr soleOwner_empty)
  have hF : st.m_createDeviceFormat.isSome = true := by simp [hformat]
  have hS : st.m_createDeviceSettings.isSome = true := by simp [hsettings]
  refine ⟨?_, ?_, ?_⟩
  · simp [OnCreateDevice, assert_ok, bind_apply, pure_apply, M.andThen, M.read, M.update,
      hqueued, hF, hS, hrel]
  · simp [OnCreateDevice, assert_ok, bind_apply, pure_apply, M.andThen, M.read, M.update,
      hqueued, hF, hS, hrel, hrel']
  · intro format' settings'
    have hrel1 := ReleaseDevice_eq env
      { st with m_createDeviceFormat := some format', m_createDeviceSettings := some settings',
                m_queuedCreateDevice := false } hown
    have hrel1' := ReleaseDevice_eq env
      { st with m_createDeviceFormat := some format', m_createDeviceSettings := some settings',
                m_queuedCreateDevice := false, m_device := {} } (Or.inr soleOwner_empty)
    simp [CreateDevice, SendMessage, WindowProc, WM_CREATE_DEVICE, WM_DESTROY, WM_USER,
      WM_CHECK_BITSTREAM_FORMAT, OnCreateDevice, assert_ok, bind_apply, pure_apply,
      M.andThen, M.read, M.update, M.call, hrel1, hrel1']

theorem assert_pure {σ : Type} (env : Env) (b : Bool) (s : σ) :
    assert env (pure b) s =
      if (env.NDEBUG || b) = true then ⟨Result.value (), s, []⟩
      else ⟨Result.fatal Fatal.assertion, s, []⟩ := by
  cases hn : env.NDEBUG <;> cases b <;>
    simp [assert, bind_apply, pure_apply, M.andThen, M.abort, hn]

theorem assert_read {σ : Type} (env : Env) (f : σ → Bool) (s : σ) :
    assert env (M.read >>= fun x => pure (f x)) s =
      if (env.NDEBUG || f s) = true then ⟨Result.value (), s, []⟩
      else ⟨Result.fatal Fatal.assertion, s, []⟩ := by
  cases hn : env.NDEBUG <;> cases hb : f s <;>
    simp [assert, bind_apply, pure_apply, M.andThen, M.abort, M.read, hn, hb]

theorem check_tryBlock_state (env : Env) (s : DeviceManager) :
    (OnCheckBitstreamFormat.tryBlock env s).state = s := by
  generalize hO : CreateAudioClient env s.m_checkBitstreamSettings {} = o
  obtain ⟨res, dev, tr⟩ := o
  cases res <;> cases hc : s.m_device.audioClient <;>
    simp [OnCheckBitstreamFormat.tryBlock, bind_apply, pure_apply, M.andThen, M.read, M.call,
      M.withLocal, hO, hc]

theorem OnCheckBitstreamFormat_clears (env : Env) (st : DeviceManager)
    (hq : st.m_queuedCheckBitstream = true)
    (hr : ∀ why, (OnCheckBitstreamFormat env st).result ≠ Result.fatal why) :
    (OnCheckBitstreamFormat env st).state.m_queuedCheckBitstream = false := by
  have hT := check_tryBlock_state env { st with m_queuedCheckBitstream := false }
  by_cases hA : (env.NDEBUG || st.m_checkBitstreamFormat.isSome) = true
  · by_cases hB : (env.NDEBUG || st.m_checkBitstreamSettings.isSome) = true
    · generalize hG : OnCheckBitstreamFormat.tryBlock env { st with m_queuedCheckBitstream := false } = t
        at hT
      obtain ⟨res, s1, tr⟩ := t
      simp only at hT
      subst hT
      cases res with
      | value r =>
        simp [OnCheckBitstreamFormat, assert_read, bind_apply, pure_apply, M.andThen, M.read,
          M.update, M.tryCatch, hq, hA, hB, hG]
      | thrown e =>
        cases e <;>
        simp [OnCheckBitstreamFormat, assert_read, bind_apply, pure_apply, M.andThen, M.read,
          M.update, M.tryCatch, hq, hA, hB, hG]
      | fatal why =>
        simp [OnCheckBitstreamFormat, assert_read, bind_apply, pure_apply, M.andThen, M.read,
          M.update, M.tryCatch, hq, hA, hB, hG]
    · exfalso
      apply hr Fatal.assertion
      simp [OnCheckBitstreamFormat, assert_read, bind_apply, pure_apply, M.andThen, M.read,
        M.update, M.tryCatch, hq, hA, hB]
  · exfalso
    apply hr Fatal.assertion
    simp [OnCheckBitstreamFormat, assert_read, bind_apply, pure_apply, M.andThen, M.read,
      M.update, M.tryCatch, hq, hA]

theorem OnCreateDevice_clears (env : Env) (st : DeviceManager)
    (hq : st.m_queuedCreateDevice = true)
    (hr : ∀ why, (OnCreateDevice env st).result ≠ Result.fatal why) :
    (OnCreateDevice env st).state.m_queuedCreateDevice = false := by
  by_cases hA : (env.NDEBUG || st.m_createDeviceFormat.isSome) = true
  · by_cases hB : (env.NDEBUG || st.m_createDeviceSettings.isSome) = true
    · by_cases hown : env.NDEBUG = true ∨ soleOwner st.m_device = true
      · have hrel := ReleaseDevice_eq env { st with m_queuedCreateDevice := false } hown
        obtain ⟨-, -, f3, -⟩ := attempted_frame env
          { st with m_queuedCreateDevice := false, m_device := {} }
        generalize hG : attempted env { st with m_queuedCreateDevice := false, m_device := {} } = t
          at f3
        obtain ⟨res, s1, tr⟩ := t
        simp only at f3
        cases res with
        | value r => simp [OnCreateDevice, assert_read, bind_apply, pure_apply, M.andThen, M.read, M.update, M.tryCatch, tryBlock_eq, hq, hA, hB, hrel, hG, f3]
        | fatal why => simp [OnCreateDevice, assert_read, bind_apply, pure_apply, M.andThen, M.read, M.update, M.tryCatch, tryBlock_eq, hq, hA, hB, hrel, hG, f3]
        | thrown e =>
          obtain ⟨d, hd⟩ := ReleaseDevice_frame env s1
          rcases hres : (ReleaseDevice env s1).result with u | e2 | why <;>
            simp [OnCreateDevice, assert_read, bind_apply, pure_apply, M.andThen, M.read, M.update, M.tryCatch, tryBlock_eq, hq, hA, hB, hrel, hG, f3, hres, hd]
      · exfalso
        simp only [not_or, Bool.not_eq_true] at hown
        have hrel := ReleaseDevice_fatal env { st with m_queuedCreateDevice := false } hown.1 hown.2
        apply hr Fatal.assertion
        simp [OnCreateDevice, assert_read, bind_apply, pure_apply, M.andThen, M.read, M.update, M.tryCatch, tryBlock_eq, hq, hA, hB, hrel]
    · exfalso
      apply hr Fatal.assertion
      simp [OnCreateDevice, assert_read, bind_apply, pure_apply, M.andThen, M.read, M.update, M.tryCatch, tryBlock_eq, hq, hA, hB]
  · exfalso
    apply hr Fatal.assertion
    simp [OnCreateDevice, assert_read, bind_apply, pure_apply, M.andThen, M.read, M.update,
      M.tryCatch, hq, hA]

theorem OnCreateDevice_not_queued (env : Env) (st : DeviceManager)
    (h : st.m_queuedCreateDevice = false) :
    OnCreateDevice env st = ⟨Result.value 1, st, []⟩ := by
  simp [OnCreateDevice, bind_apply, pure_apply, M.andThen, M.read, h]

theorem OnCheckBitstreamFormat_not_queued (env : Env) (st : DeviceManager)
    (h : st.m_queuedCheckBitstream = false) :
    OnCheckBitstreamFormat env st = ⟨Result.value 1, st, []⟩ := by
  simp [OnCheckBitstreamFormat, bind_apply, pure_apply, M.andThen, M.read, h]

theorem CreateDevice_clears (env : Env) (st : DeviceManager) (format : SharedWaveFormat)
    (pSettings : Option ISettings)
    (hr : ∀ why, (CreateDevice env format pSettings st).result ≠ Result.fatal why) :
    (CreateDevice env format pSettings st).state.m_queuedCreateDevice = false := by
  by_cases hA : (env.NDEBUG || format.isSome) = true
  · by_cases hB : (env.NDEBUG || pSettings.isSome) = true
    · have hflag := OnCreateDevice_clears env
        { st with m_createDeviceFormat := format, m_createDeviceSettings := pSettings, m_queuedCreateDevice := true } rfl
      generalize hH : OnCreateDevice env
        { st with m_createDeviceFormat := format, m_createDeviceSettings := pSettings, m_queuedCreateDevice := true } = h at hflag
      obtain ⟨res, s1, tr⟩ := h
      simp only at hflag
      cases res with
      | value r =>
        have hf := hflag (by simp)
        simp [CreateDevice, SendMessage, WindowProc, WM_CREATE_DEVICE, WM_DESTROY, WM_USER, WM_CHECK_BITSTREAM_FORMAT, assert_pure, assert_read, bind_apply, pure_apply, M.andThen, M.read, M.update, hA, hB, hH, hf]
      | thrown e =>
        have hf := hflag (by simp)
        simp [CreateDevice, SendMessage, WindowProc, WM_CREATE_DEVICE, WM_DESTROY, WM_USER, WM_CHECK_BITSTREAM_FORMAT, assert_pure, assert_read, bind_apply, pure_apply, M.andThen, M.read, M.update, hA, hB, hH, hf]
      | fatal why =>
        exfalso
        apply hr why
        simp [CreateDevice, SendMessage, WindowProc, WM_CREATE_DEVICE, WM_DESTROY, WM_USER, WM_CHECK_BITSTREAM_FORMAT, assert_pure, assert_read, bind_apply, pure_apply, M.andThen, M.read, M.update, hA, hB, hH]
    · exfalso
      apply hr Fatal.assertion
      simp [CreateDevice, SendMessage, WindowProc, WM_CREATE_DEVICE, WM_DESTROY, WM_USER, WM_CHECK_BITSTREAM_FORMAT, assert_pure, assert_read, bind_apply, pure_apply, M.andThen, M.read, M.update, hA, hB]
  · exfalso
    apply hr Fatal.assertion
    simp [CreateDevice, assert_pure, bind_apply, pure_apply, M.andThen, hA]

theorem BitstreamFormatSupported_clears (env : Env) (st : DeviceManager) (format : SharedWaveFormat)
    (pSettings : Option ISettings)
    (hr : ∀ why, (BitstreamFormatSupported env format pSettings st).result ≠ Result.fatal why) :
    (BitstreamFormatSupported env format pSettings st).state.m_queuedCheckBitstream = false := by
  by_cases hA : (env.NDEBUG || format.isSome) = true
  · by_cases hB : (env.NDEBUG || pSettings.isSome) = true
    · have hflag := OnCheckBitstreamFormat_clears env
        { st with m_checkBitstreamFormat := format, m_checkBitstreamSettings := pSettings, m_queuedCheckBitstream := true } rfl
      generalize hH : OnCheckBitstreamFormat env
        { st with m_checkBitstreamFormat := format, m_checkBitstreamSettings := pSettings, m_queuedCheckBitstream := true } = h at hflag
      obtain ⟨res, s1, tr⟩ := h
      simp only at hflag
      cases res with
      | value r =>
        have hf := hflag (by simp)
        simp [BitstreamFormatSupported, SendMessage, WindowProc, WM_CREATE_DEVICE, WM_DESTROY, WM_USER, WM_CHECK_BITSTREAM_FORMAT, assert_pure, assert_read, bind_apply, pure_apply, M.andThen, M.read, M.update, hA, hB, hH, hf]
      | thrown e =>
        have hf := hflag (by simp)
        simp [BitstreamFormatSupported, SendMessage, WindowProc, WM_CREATE_DEVICE, WM_DESTROY, WM_USER, WM_CHECK_BITSTREAM_FORMAT, assert_pure, assert_read, bind_apply, pure_apply, M.andThen, M.read, M.update, hA, hB, hH, hf]
      | fatal why =>
        exfalso
        apply hr why
        simp [BitstreamFormatSupported, SendMessage, WindowProc, WM_CREATE_DEVICE, WM_DESTROY, WM_USER, WM_CHECK_BITSTREAM_FORMAT, assert_pure, assert_read, bind_apply, pure_apply, M.andThen, M.read, M.update, hA, hB, hH]
    · exfalso
      apply hr Fatal.assertion
      simp [BitstreamFormatSupported, SendMessage, WindowProc, WM_CREATE_DEVICE, WM_DESTROY, WM_USER, WM_CHECK_BITSTREAM_FORMAT, assert_pure, assert_read, bind_apply, pure_apply, M.andThen, M.read, M.update, hA, hB]
  · exfalso
    apply hr Fatal.assertion
    simp [BitstreamFormatSupported, assert_pure, bind_apply, pure_apply, M.andThen, hA]

/-- C10. A handler invoked while its queued flag is false returns failure and leaves
the engine unchanged without making any call; a handler invoked while its flag is true
has cleared the flag whenever it returns or throws; hence after every
`BitstreamFormatSupported` or `CreateDevice` call that comes back the flag is false, and
delivering the message again runs nothing. -/
theorem queued_flag_protocol (env : Env) (st : DeviceManager) :
    (st.m_queuedCheckBitstream = false →
      OnCheckBitstreamFormat env st = ⟨Result.value 1, st, []⟩) ∧
    (st.m_queuedCreateDevice = false →
      OnCreateDevice env st = ⟨Result.value 1, st, []⟩) ∧
    (st.m_queuedCheckBitstream = true →
      (∀ why, (OnCheckBitstreamFormat env st).result ≠ Result.fatal why) →
      (OnCheckBitstreamFormat env st).state.m_queuedCheckBitstream = false) ∧
    (st.m_queuedCreateDevice = true →
      (∀ why, (OnCreateDevice env st).result ≠ Result.fatal why) →
      (OnCreateDevice env st).state.m_queuedCreateDevice = false) ∧
    (∀ format pSettings,
      (∀ why, (BitstreamFormatSupported env format pSettings st).result ≠ Result.fatal why) →
      (BitstreamFormatSupported env format pSettings st).state.m_queuedCheckBitstream = false ∧
      OnCheckBitstreamFormat env (BitstreamFormatSupported env format pSettings st).state =
        ⟨Result.value 1, (BitstreamFormatSupported env format pSettings st).state, []⟩) ∧
    (∀ format pSettings,
      (∀ why, (CreateDevice env format pSettings st).result ≠ Result.fatal why) →
      (CreateDevice env format pSettings st).state.m_queuedCreateDevice = false ∧
      OnCreateDevice env (CreateDevice env format pSettings st).state =
        ⟨Result.value 1, (CreateDevice env format pSettings st).state, []⟩) := by
  refine ⟨OnCheckBitstreamFormat_not_queued env st, OnCreateDevice_not_queued env st,
    OnCheckBitstreamFormat_clears env st, OnCreateDevice_clears env st, ?_, ?_⟩
  · intro format pSettings hr
    have h := BitstreamFormatSupported_clears env st format pSettings hr
    exact ⟨h, OnCheckBitstreamFormat_not_queued env _ h⟩
  · intro format pSettings hr
    have h := CreateDevice_clears env st format pSettings hr
    exact ⟨h, OnCreateDevice_not_queued env _ h⟩

/-- C1. A bitstream format requested in shared mode on the default endpoint:
`CreateDevice` returns failure, yet the engine still holds the activated client, and so
does the device copied out to the caller. -/
theorem CreateDevice_shared_bitstream_keeps_client :
    ∃ out,
      (CreateDevice (Example.env (Example.endpoint "Default" Example.accepting) [])
        (some Example.ac3) (some (Example.settings none false)) {}).result =
          Result.value (false, out) ∧
      out.audioClient.isSome = true ∧
      (CreateDevice (Example.env (Example.endpoint "Default" Example.accepting) [])
        (some Example.ac3) (some (Example.settings none false)) {}).state.m_device.audioClient.isSome =
          true ∧
      Event.ReleaseDevice ∉
        (CreateDevice (Example.env (Example.endpoint "Default" Example.accepting) [])
          (some Example.ac3) (some (Example.settings none false)) {}).trace.tail :=
  ⟨_, rfl, rfl, rfl, by decide⟩

/-- C2. With the active endpoints "A" and "B" enumerated in this order and every call
succeeding, a request for "A" finishes with no client and no friendly name, while a
request for "B", the last endpoint, gets its client. -/
theorem CreateAudioClient_selects_last_endpoint_only :
    friendlyNameAt (Example.collection
      [Example.endpoint "A" Example.accepting, Example.endpoint "B" Example.rejecting]
      (Example.endpoint "Default" Example.accepting)) 0 = "A" ∧
    (CreateAudioClient (Example.env (Example.endpoint "Default" Example.accepting)
        [Example.endpoint "A" Example.accepting, Example.endpoint "B" Example.rejecting])
      (some (Example.settings (some "A") false)) {}).result = Result.value () ∧
    (CreateAudioClient (Example.env (Example.endpoint "Default" Example.accepting)
        [Example.endpoint "A" Example.accepting, Example.endpoint "B" Example.rejecting])
      (some (Example.settings (some "A") false)) {}).state.audioClient.isNone = true ∧
    (CreateAudioClient (Example.env (Example.endpoint "Default" Example.accepting)
        [Example.endpoint "A" Example.accepting, Example.endpoint "B" Example.rejecting])
      (some (Example.settings (some "A") false)) {}).state.friendlyName = none ∧
    Event.Activate ∉
      (CreateAudioClient (Example.env (Example.endpoint "Default" Example.accepting)
          [Example.endpoint "A" Example.accepting, Example.endpoint "B" Example.rejecting])
        (some (Example.settings (some "A") false)) {}).trace ∧
    (CreateAudioClient (Example.env (Example.endpoint "Default" Example.accepting)
        [Example.endpoint "A" Example.accepting, Example.endpoint "B" Example.rejecting])
      (some (Example.settings (some "B") false)) {}).state.friendlyName = some "B" ∧
    (CreateAudioClient (Example.env (Example.endpoint "Default" Example.accepting)
        [Example.endpoint "A" Example.accepting, Example.endpoint "B" Example.rejecting])
      (some (Example.settings (some "B") false)) {}).state.audioClient.isSome = true :=
  ⟨rfl, rfl, rfl, rfl, by decide, rfl, rfl⟩

/-- C3. The answer of `BitstreamFormatSupported` comes from the device the engine holds,
not from the device built from the settings: with a held client that supports the
format it is true although the settings name an endpoint that does not exist and select
shared mode, and with no held device it is false although the settings select the
default endpoint in exclusive mode and that endpoint supports the format. -/
theorem BitstreamFormatSupported_asks_held_device :
    (BitstreamFormatSupported (Example.env (Example.endpoint "Default" Example.rejecting) [])
      (some Example.ac3) (some (Example.settings (some "Nonexistent Device") false))
      (Example.holding Example.accepting)).result = Result.value true ∧
    (BitstreamFormatSupported (Example.env (Example.endpoint "Default" Example.accepting) [])
      (some Example.ac3) (some (Example.settings none true)) {}).result = Result.value false ∧
    (CreateAudioClient (Example.env (Example.endpoint "Default" Example.accepting) [])
      (some (Example.settings none true)) {}).state.exclusive = true ∧
    (CreateAudioClient (Example.env (Example.endpoint "Default" Example.accepting) [])
      (some (Example.settings none true)) {}).state.audioClient.isSome = true :=
  ⟨rfl, rfl, rfl, rfl⟩

/-- C4, counterexample. An endpoint whose client rejects all ten candidates in exclusive
mode and whose `Initialize` succeeds without a format: `CreateDevice` returns success
and the device has no format. -/
theorem CreateDevice_all_rejected_succeeds :
    (∀ g ∈ candidates 44100 48000 2 3, accepts Example.lenient g = false) ∧
    ∃ out,
      (CreateDevice (Example.env (Example.endpoint "Default" Example.lenient) [])
        (some Example.pcm16) (some (Example.settings none true)) {}).result =
          Result.value (true, out) ∧
      out.format = none ∧ out.audioClient.isSome = true :=
  ⟨fun _ _ => rfl, _, rfl, rfl, rfl⟩

theorem CreateDevice_exclusive_all_rejected_witness :
    (CreateDevice (Example.env (Example.endpoint "Default" Example.rejecting) [])
      (some Example.pcm16) (some (Example.settings none true)) {}).result =
        Result.value (false, {}) ∧
    (CreateDevice (Example.env (Example.endpoint "Default" Example.rejecting) [])
      (some Example.pcm16) (some (Example.settings none true)) {}).state.m_device = {} :=
  have h := CreateDevice_exclusive_all_rejected
    (Example.env (Example.endpoint "Default" Example.rejecting) []) {} Example.pcm16
    (Example.settings none true) _ _ Example.rejecting (Or.inr ⟨rfl, rfl⟩) (by decide) (by decide)
    rfl rfl rfl (fun _ _ => rfl) rfl
  ⟨h.1, h.2.1⟩

theorem CreateDevice_shared_witness :
    ∃ out,
      (CreateDevice (Example.env (Example.endpoint "Default" Example.accepting) [])
        (some Example.pcm16) (some (Example.settings (some "") false)) {}).result =
          Result.value (true, out) ∧
      out.dspFormat = DspFormat.Float ∧ out.format = some Example.mix ∧ out.default = true :=
  match CreateDevice_shared
    (Example.env (Example.endpoint "Default" Example.accepting) []) {} Example.pcm16
    (Example.settings (some "") false) _ _ Example.accepting
    (Or.inr rfl) (by decide) rfl rfl rfl rfl rfl rfl rfl with
  | ⟨out, h1, _, _, _, _, h6, _, h8, _, h10⟩ => ⟨out, h1, h6, h8, h10 rfl⟩

theorem CreateDevice_endpoint_not_found_witness :
    ∃ out,
      (CreateDevice (Example.env (Example.endpoint "Default" Example.accepting)
          [Example.endpoint "A" Example.accepting, Example.endpoint "B" Example.rejecting])
        (some Example.pcm16) (some (Example.settings (some "Nonexistent Device") true))
        (Example.holding Example.accepting)).result = Result.value (false, out) ∧
      out.audioClient = none ∧ out.format = none :=
  match CreateDevice_endpoint_not_found
    (Example.env (Example.endpoint "Default" Example.accepting)
      [Example.endpoint "A" Example.accepting, Example.endpoint "B" Example.rejecting])
    (Example.holding Example.accepting) Example.pcm16
    (Example.settings (some "Nonexistent Device") true) (Or.inr rfl) rfl
    (fun j hj => by
      have hj2 : j < 2 := hj
      interval_cases j <;> decide) with
  | ⟨out, h1, _, h3, _, _, h6, _⟩ => ⟨out, h1, h3, h6⟩

theorem OnCreateDevice_releases_first_witness :
    OnCreateDevice (Example.env (Example.endpoint "Default" Example.accepting) [])
      { Example.holding Example.accepting with
        m_queuedCreateDevice := true
        m_createDeviceFormat := some Example.pcm16
        m_createDeviceSettings := some (Example.settings none false) } =
    OnCreateDevice (Example.env (Example.endpoint "Default" Example.accepting) [])
      { m_queuedCreateDevice := true
        m_createDeviceFormat := some Example.pcm16
        m_createDeviceSettings := some (Example.settings none false) } :=
  (OnCreateDevice_releases_first (Example.env (Example.endpoint "Default" Example.accepting) [])
    { Example.holding Example.accepting with
      m_queuedCreateDevice := true
      m_createDeviceFormat := some Example.pcm16
      m_createDeviceSettings := some (Example.settings none false) }
    Example.pcm16 (Example.settings none false) rfl rfl rfl (Or.inr rfl)).2.1

theorem queued_flag_protocol_witness :
    (OnCreateDevice (Example.env (Example.endpoint "Default" Example.accepting) [])
      { m_queuedCreateDevice := true
        m_createDeviceFormat := some Example.pcm16
        m_createDeviceSettings := some (Example.settings none false) }).result =
        Result.value 0 ∧
    (OnCreateDevice (Example.env (Example.endpoint "Default" Example.accepting) [])
      { m_queuedCreateDevice := true
        m_createDeviceFormat := some Example.pcm16
        m_createDeviceSettings := some (Example.settings none false) }).state.m_queuedCreateDevice =
        false ∧
    (BitstreamFormatSupported (Example.env (Example.endpoint "Default" Example.accepting) [])
      (some Example.ac3) (some (Example.settings none true))
      (Example.holding Example.accepting)).state.m_queuedCheckBitstream = false :=
  ⟨rfl,
    (queued_flag_protocol (Example.env (Example.endpoint "Default" Example.accepting) [])
      { m_queuedCreateDevice := true
        m_createDeviceFormat := some Example.pcm16
        m_createDeviceSettings := some (Example.settings none false) }).2.2.2.1 rfl
      (fun why h => by cases h),
    ((queued_flag_protocol (Example.env (Example.endpoint "Default" Example.accepting) [])
      (Example.holding Example.accepting)).2.2.2.2.1 (some Example.ac3)
      (some (Example.settings none true)) (fun why h => by cases h)).1⟩

end SaneAudioRenderer
